import Mathlib

/-!
Shallow embedding of the snapshot ingestion pipeline of the `dijon`
repository (files `dijon/snapshot.py`, `dijon/crud.py`, `dijon/models.py`,
`dijon/database.py`), together with theorems settling the claims about it.

The remote directory delivers every record as a flat JSON object whose
values are strings; an absent key and a present string are the two raw
shapes a field can take, so a raw field is modelled as `Option String`.
Records rejected by pydantic validation correspond to `Option.none`
results of the `mk?` functions below.
-/

namespace Dijon

/-! ## Character-list string primitives

The embedding manipulates strings through their character lists, with
small executable primitives (the core `String` operations hide position
arithmetic that the kernel cannot evaluate). -/

/-- The ASCII whitespace Python's `str.strip` removes. -/
def isPySpace (c : Char) : Bool :=
  c = ' ' || c = '\t' || c = '\n' || c = '\r' || c = '\x0b' || c = '\x0c'

/-- Python `str.strip`: drop whitespace from both ends. -/
def trimChars (l : List Char) : List Char :=
  ((l.dropWhile isPySpace).reverse.dropWhile isPySpace).reverse

/-- At least one character and nothing but decimal digits. -/
def allDigits (l : List Char) : Bool :=
  !l.isEmpty && l.all Char.isDigit

/-- The numeric value of a digit list. -/
def digitsToNat (l : List Char) : Nat :=
  l.foldl (fun n c => n * 10 + (c.toNat - 48)) 0

/-- Split on a separator character; mirrors Python `str.split(sep)` for a
one-character separator (the empty input yields one empty segment). -/
def splitOnChar (sep : Char) : List Char → List (List Char)
  | [] => [[]]
  | c :: rest =>
    let r := splitOnChar sep rest
    if c = sep then [] :: r
    else
      match r with
      | [] => [[c]]
      | h :: t => (c :: h) :: t

/-- ASCII lower-casing, the effect of Python `str.lower` on the inputs the
directory sends. -/
def lowerChars (l : List Char) : List Char :=
  l.map (fun c => if 'A' ≤ c && c ≤ 'Z' then Char.ofNat (c.toNat + 32) else c)

/-! ## Field normalizers (the pydantic validation layer of snapshot.py) -/

/-- Python `int(s)` as applied to the strings delivered by the directory:
surrounding whitespace is stripped, an optional sign precedes one or more
decimal digits.  Returns `none` where Python raises `ValueError`. -/
def pyInt (s : String) : Option Int :=
  match trimChars s.data with
  | '-' :: ds => if allDigits ds then some (-(digitsToNat ds : Int)) else none
  | '+' :: ds => if allDigits ds then some ((digitsToNat ds : Int)) else none
  | ds => if allDigits ds then some ((digitsToNat ds : Int)) else none

/-- pydantic v1's `BOOL_TRUE` string encodings, lower-cased. -/
def boolTrueEncodings : List (List Char) :=
  [['1'], ['o', 'n'], ['t'], ['t', 'r', 'u', 'e'], ['y'], ['y', 'e', 's']]

/-- pydantic v1's `BOOL_FALSE` string encodings, lower-cased. -/
def boolFalseEncodings : List (List Char) :=
  [['0'], ['o', 'f', 'f'], ['f'], ['f', 'a', 'l', 's', 'e'], ['n'], ['n', 'o']]

/-- pydantic v1 `bool_validator` restricted to string input (the only shape
the directory sends): the lower-cased value must be one of the recognised
truthy or falsy encodings, anything else is a validation error. -/
def pyBool (s : String) : Option Bool :=
  let t : List Char := lowerChars s.data
  if boolTrueEncodings.contains t then some true
  else if boolFalseEncodings.contains t then some false
  else none

/-- Whether Python `Decimal(s)` succeeds on the plain decimal literals the
directory sends for coordinates: optional surrounding whitespace, optional
sign, digits with an optional fractional part, at least one digit. -/
def pyDecimalOk (s : String) : Bool :=
  let t := trimChars s.data
  let u := match t with
    | '-' :: rest => rest
    | '+' :: rest => rest
    | _ => t
  match splitOnChar '.' u with
  | [a] => allDigits a
  | [a, b] =>
    (!a.isEmpty || !b.isEmpty) && a.all Char.isDigit && b.all Char.isDigit
  | _ => false

/-- A wall-clock time of day, the parse target of the `start_time` field. -/
structure TimeOfDay where
  hour : Nat
  minute : Nat
  second : Nat
deriving DecidableEq

/-- pydantic v1 `parse_time` on the `HH:MM[:SS]` strings the directory
sends: one or two hour digits below 24, two minute digits below 60,
optionally two second digits below 60. -/
def pyTime (s : String) : Option TimeOfDay :=
  let seg2 (x : List Char) : Option Nat :=
    if x.length = 2 && x.all Char.isDigit then some (digitsToNat x) else none
  let segH (x : List Char) : Option Nat :=
    if (x.length = 1 || x.length = 2) && x.all Char.isDigit then some (digitsToNat x) else none
  match splitOnChar ':' s.data with
  | [h, m] => do
    let h ← segH h
    let m ← seg2 m
    if h ≤ 23 && m ≤ 59 then some ⟨h, m, 0⟩ else none
  | [h, m, sec] => do
    let h ← segH h
    let m ← seg2 m
    let sec ← seg2 sec
    if h ≤ 23 && m ≤ 59 && sec ≤ 59 then some ⟨h, m, sec⟩ else none
  | _ => none

/-- pydantic v1 `parse_duration` on the `[[HH:]MM:]SS` duration strings the
directory sends, yielding a number of seconds.  The Django-style format
places no upper bound on the individual segments. -/
def pyDuration (s : String) : Option Int :=
  let seg (x : List Char) : Option Nat :=
    if allDigits x then some (digitsToNat x) else none
  match splitOnChar ':' s.data with
  | [sec] => (seg sec).map (fun n => (n : Int))
  | [m, sec] => do
    let m ← seg m
    let sec ← seg sec
    some ((m * 60 + sec : Nat) : Int)
  | [h, m, sec] => do
    let h ← seg h
    let m ← seg m
    let sec ← seg sec
    some ((h * 3600 + m * 60 + sec : Nat) : Int)
  | _ => none

/-- `Optional[EmptyToNoneStr]` (snapshot.py): an absent key and an empty
string both become `None`; any other string passes through unchanged.
This field shape never rejects the record. -/
def emptyToNone (v : Option String) : Option String :=
  match v with
  | none => none
  | some s => if s = "" then none else some s

/-- A required `constr(min_length=1)` field: absent or empty rejects the
record, any other string is the value. -/
def reqStr1 (v : Option String) : Option String :=
  match v with
  | none => none
  | some s => if s = "" then none else some s

/-- A required `int` field: absent or unparsable rejects the record. -/
def reqInt (v : Option String) : Option Int :=
  v.bind pyInt

/-- A required `conint(ge=lo, le=hi)` field: parsed as an integer and then
range-checked; any failure rejects the record. -/
def reqIntRange (lo hi : Int) (v : Option String) : Option Int :=
  (reqInt v).bind (fun k => if lo ≤ k && k ≤ hi then some k else none)

/-- The `venue_type` field (snapshot.py `venue_type_pre` plus the
`Optional[conint(ge=1, le=3)]` declaration): an absent key takes the
default `None` without running the validator; a present string is fed to
Python `int`, any `ValueError` (empty string or otherwise unparsable
text) becomes `None`, and a parsed integer outside `[1, 3]` rejects the
record.  Outer `none` means the record is rejected. -/
def venueTypeField (v : Option String) : Option (Option Int) :=
  match v with
  | none => some none
  | some s =>
    match pyInt s with
    | none => some none
    | some k => if 1 ≤ k && k ≤ 3 then some (some k) else none

/-- The `format_shared_id_list` field (snapshot.py
`format_shared_id_list_pre` plus `Optional[list[int]]` with a list
default): absent or empty becomes the empty list; otherwise the string is
split on commas, each segment stripped of whitespace and parsed as an
integer, and any unparsable segment rejects the record. -/
def formatListField (v : Option String) : Option (List Int) :=
  match v with
  | none => some []
  | some s =>
    if s = "" then some []
    else ((splitOnChar ',' s.data).map trimChars).mapM
      (fun seg => pyInt (String.mk seg))

/-- The `longitude` / `latitude` fields (snapshot.py `longitude_pre` /
`latitude_pre` plus `Optional[Decimal]`): `Decimal(v)` is attempted, an
`InvalidOperation` (the directory sends an empty string for unset) makes
the field `None` instead of rejecting the record; the validated decimal
is kept as its literal.  This field shape never rejects the record. -/
def decimalField (v : Option String) : Option String :=
  match v with
  | none => none
  | some s => if pyDecimalOk s then some s else none

/-- A required `time` field: absent or malformed rejects the record. -/
def reqTime (v : Option String) : Option TimeOfDay :=
  v.bind pyTime

/-- A required `timedelta` field: absent or malformed rejects the record. -/
def reqDuration (v : Option String) : Option Int :=
  v.bind pyDuration

/-- A required `bool` field: absent or unrecognised rejects the record. -/
def reqBool (v : Option String) : Option Bool :=
  v.bind pyBool

/-! ## Raw records and the three record parsers (snapshot.py) -/

/-- A raw service body record as served by the GetServiceBodies endpoint:
each declared field is either absent or a string. -/
structure RawServiceBody where
  id : Option String
  parent_id : Option String
  name : Option String
  type : Option String
  description : Option String
  url : Option String
  helpline : Option String
  world_id : Option String
deriving DecidableEq

/-- snapshot.py `BmltServiceBody`: the validated in-memory service body
record. -/
structure BmltServiceBody where
  id : Int
  parent_id : Int
  name : String
  type : String
  description : Option String
  url : Option String
  helpline : Option String
  world_id : Option String
deriving DecidableEq

/-- Validation of one raw service body record, `none` when pydantic
raises `ValidationError` for any field. -/
def BmltServiceBody.mk? (raw : RawServiceBody) : Option BmltServiceBody := do
  let id ← reqInt raw.id
  let parent_id ← reqInt raw.parent_id
  let name ← reqStr1 raw.name
  let ty ← reqStr1 raw.type
  some { id := id, parent_id := parent_id, name := name, type := ty,
         description := emptyToNone raw.description,
         url := emptyToNone raw.url,
         helpline := emptyToNone raw.helpline,
         world_id := emptyToNone raw.world_id }

/-- snapshot.py `BmltServiceBody.from_url` after the transport layer: the
loop that validates each raw record, skipping (`continue`) the ones that
raise `ValueError` and appending the rest in order. -/
def BmltServiceBody.fromRaws : List RawServiceBody → List BmltServiceBody
  | [] => []
  | raw :: rest =>
    match BmltServiceBody.mk? raw with
    | none => BmltServiceBody.fromRaws rest
    | some sb => sb :: BmltServiceBody.fromRaws rest

/-- A raw format record as served by the GetFormats endpoint. -/
structure RawFormat where
  id : Option String
  key_string : Option String
  name_string : Option String
  world_id : Option String
deriving DecidableEq

/-- snapshot.py `BmltFormat`: the validated in-memory format record. -/
structure BmltFormat where
  id : Int
  key_string : String
  name_string : Option String
  world_id : Option String
deriving DecidableEq

/-- Validation of one raw format record. -/
def BmltFormat.mk? (raw : RawFormat) : Option BmltFormat := do
  let id ← reqInt raw.id
  let key_string ← reqStr1 raw.key_string
  some { id := id, key_string := key_string,
         name_string := emptyToNone raw.name_string,
         world_id := emptyToNone raw.world_id }

/-- snapshot.py `BmltFormat.from_url` after the transport layer: validate
each raw record, skip the invalid ones, keep order. -/
def BmltFormat.fromRaws : List RawFormat → List BmltFormat
  | [] => []
  | raw :: rest =>
    match BmltFormat.mk? raw with
    | none => BmltFormat.fromRaws rest
    | some f => f :: BmltFormat.fromRaws rest

/-- A raw meeting record as served by the GetSearchResults endpoint,
restricted to the fields the `BmltMeeting` model declares (pydantic
ignores the remaining keys). -/
structure RawMeeting where
  id_bigint : Option String
  meeting_name : Option String
  weekday_tinyint : Option String
  worldid_mixed : Option String
  service_body_bigint : Option String
  start_time : Option String
  duration_time : Option String
  venue_type : Option String
  time_zone : Option String
  format_shared_id_list : Option String
  longitude : Option String
  latitude : Option String
  comments : Option String
  virtual_meeting_additional_info : Option String
  location_city_subsection : Option String
  virtual_meeting_link : Option String
  phone_meeting_number : Option String
  location_nation : Option String
  location_postal_code_1 : Option String
  location_province : Option String
  location_sub_province : Option String
  location_municipality : Option String
  location_neighborhood : Option String
  location_street : Option String
  location_info : Option String
  location_text : Option String
  bus_lines : Option String
  train_lines : Option String
  published : Option String
deriving DecidableEq

/-- snapshot.py `BmltMeeting`: the validated in-memory meeting record. -/
structure BmltMeeting where
  id_bigint : Int
  meeting_name : String
  weekday_tinyint : Int
  worldid_mixed : Option String
  service_body_bigint : Int
  start_time : TimeOfDay
  duration_time : Int
  venue_type : Option Int
  time_zone : Option String
  format_shared_id_list : List Int
  longitude : Option String
  latitude : Option String
  comments : Option String
  virtual_meeting_additional_info : Option String
  location_city_subsection : Option String
  virtual_meeting_link : Option String
  phone_meeting_number : Option String
  location_nation : Option String
  location_postal_code_1 : Option String
  location_province : Option String
  location_sub_province : Option String
  location_municipality : Option String
  location_neighborhood : Option String
  location_street : Option String
  location_info : Option String
  location_text : Option String
  bus_lines : Option String
  train_lines : Option String
  published : Bool
deriving DecidableEq

/-- Validation of one raw meeting record, `none` when pydantic raises
`ValidationError` for any field. -/
def BmltMeeting.mk? (raw : RawMeeting) : Option BmltMeeting := do
  let id_bigint ← reqInt raw.id_bigint
  let meeting_name ← reqStr1 raw.meeting_name
  let weekday_tinyint ← reqIntRange 1 7 raw.weekday_tinyint
  let service_body_bigint ← reqInt raw.service_body_bigint
  let start_time ← reqTime raw.start_time
  let duration_time ← reqDuration raw.duration_time
  let venue_type ← venueTypeField raw.venue_type
  let format_shared_id_list ← formatListField raw.format_shared_id_list
  let published ← reqBool raw.published
  some { id_bigint := id_bigint,
         meeting_name := meeting_name,
         weekday_tinyint := weekday_tinyint,
         worldid_mixed := emptyToNone raw.worldid_mixed,
         service_body_bigint := service_body_bigint,
         start_time := start_time,
         duration_time := duration_time,
         venue_type := venue_type,
         time_zone := emptyToNone raw.time_zone,
         format_shared_id_list := format_shared_id_list,
         longitude := decimalField raw.longitude,
         latitude := decimalField raw.latitude,
         comments := emptyToNone raw.comments,
         virtual_meeting_additional_info := emptyToNone raw.virtual_meeting_additional_info,
         location_city_subsection := emptyToNone raw.location_city_subsection,
         virtual_meeting_link := emptyToNone raw.virtual_meeting_link,
         phone_meeting_number := emptyToNone raw.phone_meeting_number,
         location_nation := emptyToNone raw.location_nation,
         location_postal_code_1 := emptyToNone raw.location_postal_code_1,
         location_province := emptyToNone raw.location_province,
         location_sub_province := emptyToNone raw.location_sub_province,
         location_municipality := emptyToNone raw.location_municipality,
         location_neighborhood := emptyToNone raw.location_neighborhood,
         location_street := emptyToNone raw.location_street,
         location_info := emptyToNone raw.location_info,
         location_text := emptyToNone raw.location_text,
         bus_lines := emptyToNone raw.bus_lines,
         train_lines := emptyToNone raw.train_lines,
         published := published }

/-- snapshot.py `BmltMeeting.from_url` after the transport layer: validate
each raw record, skip the invalid ones, keep order. -/
def BmltMeeting.fromRaws : List RawMeeting → List BmltMeeting
  | [] => []
  | raw :: rest =>
    match BmltMeeting.mk? raw with
    | none => BmltMeeting.fromRaws rest
    | some m => m :: BmltMeeting.fromRaws rest

/-! ## The persisted data model (models.py)

Tables are lists in insertion order; a SQLAlchemy query without an
`ORDER BY` returns rows in table order.  Autoincrement primary keys are
per-table counters carried in the database state. -/

/-- models.py RootServer. -/
structure RootServer where
  id : Nat
  name : String
  url : String
deriving DecidableEq

/-- models.py Snapshot. -/
structure Snapshot where
  id : Nat
  root_server_id : Nat
deriving DecidableEq

/-- models.py ServiceBodyNawsCode (scoped to a root server). -/
structure ServiceBodyNawsCode where
  id : Nat
  root_server_id : Nat
  bmlt_id : Int
deriving DecidableEq

/-- models.py FormatNawsCode (scoped to a root server). -/
structure FormatNawsCode where
  id : Nat
  root_server_id : Nat
  bmlt_id : Int
deriving DecidableEq

/-- models.py MeetingNawsCode (scoped to a root server). -/
structure MeetingNawsCode where
  id : Nat
  root_server_id : Nat
  bmlt_id : Int
deriving DecidableEq

/-- models.py ServiceBody. -/
structure ServiceBody where
  id : Nat
  snapshot_id : Nat
  bmlt_id : Int
  parent_id : Option Nat
  name : String
  type : String
  description : Option String
  url : Option String
  helpline : Option String
  world_id : Option String
  service_body_naws_code_id : Option Nat
deriving DecidableEq

/-- models.py Format. -/
structure Format where
  id : Nat
  snapshot_id : Nat
  bmlt_id : Int
  key_string : String
  name : Option String
  world_id : Option String
  format_naws_code_id : Option Nat
deriving DecidableEq

/-- models.py Meeting; the latitude/longitude decimals are carried as
their validated literals. -/
structure Meeting where
  id : Nat
  snapshot_id : Nat
  bmlt_id : Int
  name : String
  day : Int
  service_body_id : Nat
  venue_type : Int
  start_time : TimeOfDay
  duration : Int
  time_zone : Option String
  latitude : Option String
  longitude : Option String
  published : Bool
  world_id : Option String
  meeting_naws_code_id : Option Nat
  location_text : Option String
  location_info : Option String
  location_street : Option String
  location_city_subsection : Option String
  location_neighborhood : Option String
  location_municipality : Option String
  location_sub_province : Option String
  location_province : Option String
  location_postal_code_1 : Option String
  location_nation : Option String
  train_lines : Option String
  bus_lines : Option String
  comments : Option String
  virtual_meeting_link : Option String
  phone_meeting_number : Option String
  virtual_meeting_additional_info : Option String
deriving DecidableEq

/-- models.py MeetingFormat: the join entity, identified by the
(meeting, format) pair. -/
structure MeetingFormat where
  meeting_id : Nat
  format_id : Nat
deriving DecidableEq

/-- The database state visible to queries: one list per table, plus the
autoincrement counters. -/
structure Db where
  root_servers : List RootServer
  snapshots : List Snapshot
  service_bodies : List ServiceBody
  formats : List Format
  meetings : List Meeting
  meeting_formats : List MeetingFormat
  service_body_naws_codes : List ServiceBodyNawsCode
  format_naws_codes : List FormatNawsCode
  meeting_naws_codes : List MeetingNawsCode
  next_snapshot_id : Nat
  next_service_body_id : Nat
  next_format_id : Nat
  next_meeting_id : Nat
deriving DecidableEq

/-! ## Persistence accessors (crud.py) -/

namespace crud

/-- crud.py create_snapshot: insert a Snapshot row for the root server,
flush, and return the row with its assigned id. -/
def create_snapshot (db : Db) (root_server : RootServer) : Db × Snapshot :=
  let snap : Snapshot := { id := db.next_snapshot_id, root_server_id := root_server.id }
  ({ db with snapshots := db.snapshots ++ [snap],
             next_snapshot_id := db.next_snapshot_id + 1 }, snap)

/-- crud.py get_service_bodies_by_snapshot.  The source filters on
`snapshot_id == snapshot_id`, comparing the Python argument with itself
instead of with the column: the predicate is identically true, so the
query returns every ServiceBody row regardless of snapshot.  The
embedding keeps that filter verbatim. -/
def get_service_bodies_by_snapshot (db : Db) (snapshot_id : Nat) : List ServiceBody :=
  db.service_bodies.filter (fun _ => snapshot_id == snapshot_id)

/-- crud.py get_formats_by_bmlt_ids: the formats of the snapshot whose
bmlt id is in the given set, in query (table) order. -/
def get_formats_by_bmlt_ids (db : Db) (snapshot_id : Nat) (bmlt_ids : List Int) : List Format :=
  db.formats.filter (fun f => f.snapshot_id == snapshot_id && bmlt_ids.contains f.bmlt_id)

/-- crud.py get_service_body_naws_code_by_server. -/
def get_service_body_naws_code_by_server (db : Db) (root_server_id : Nat) (bmlt_id : Int) :
    Option ServiceBodyNawsCode :=
  db.service_body_naws_codes.find?
    (fun c => c.root_server_id == root_server_id && c.bmlt_id == bmlt_id)

/-- crud.py get_format_naws_code_by_server. -/
def get_format_naws_code_by_server (db : Db) (root_server_id : Nat) (bmlt_id : Int) :
    Option FormatNawsCode :=
  db.format_naws_codes.find?
    (fun c => c.root_server_id == root_server_id && c.bmlt_id == bmlt_id)

/-- crud.py get_meeting_naws_codes_by_server. -/
def get_meeting_naws_codes_by_server (db : Db) (root_server_id : Nat) : List MeetingNawsCode :=
  db.meeting_naws_codes.filter (fun c => c.root_server_id == root_server_id)

end crud

/-! ## The Lookup Cache (snapshot.py SnapshotCache) -/

/-- A Python dict comprehension keyed by bmlt id followed by `dict.get`:
later entries overwrite earlier ones, so the lookup returns the last row
carrying the key. -/
def dictGet (rows : List ServiceBody) (bmlt_id : Int) : Option ServiceBody :=
  (rows.filter (fun r => r.bmlt_id == bmlt_id)).getLast?

/-- The naws-code counterpart of `dictGet`. -/
def dictGetNaws (rows : List MeetingNawsCode) (bmlt_id : Int) : Option MeetingNawsCode :=
  (rows.filter (fun r => r.bmlt_id == bmlt_id)).getLast?

/-- snapshot.py SnapshotCache: the per-run memo of service bodies and
meeting naws codes, each `none` until first accessed. -/
structure SnapshotCache where
  snapshot : Snapshot
  service_bodies_memo : Option (List ServiceBody)
  meeting_naws_codes_memo : Option (List MeetingNawsCode)
deriving DecidableEq

/-- SnapshotCache.__init__: both memos start unpopulated. -/
def SnapshotCache.init (snapshot : Snapshot) : SnapshotCache :=
  { snapshot := snapshot, service_bodies_memo := none, meeting_naws_codes_memo := none }

/-- The SnapshotCache.service_bodies property: populated on first access
from crud.get_service_bodies_by_snapshot for the cache's snapshot. -/
def SnapshotCache.service_bodies (db : Db) (c : SnapshotCache) :
    List ServiceBody × SnapshotCache :=
  match c.service_bodies_memo with
  | some rows => (rows, c)
  | none =>
    let rows := crud.get_service_bodies_by_snapshot db c.snapshot.id
    (rows, { c with service_bodies_memo := some rows })

/-- The SnapshotCache.meeting_naws_codes property: populated on first
access from crud.get_meeting_naws_codes_by_server for the snapshot's root
server. -/
def SnapshotCache.meeting_naws_codes (db : Db) (c : SnapshotCache) :
    List MeetingNawsCode × SnapshotCache :=
  match c.meeting_naws_codes_memo with
  | some rows => (rows, c)
  | none =>
    let rows := crud.get_meeting_naws_codes_by_server db c.snapshot.root_server_id
    (rows, { c with meeting_naws_codes_memo := some rows })

/-- SnapshotCache.get_service_body: dict lookup through the memo. -/
def SnapshotCache.get_service_body (db : Db) (c : SnapshotCache) (bmlt_id : Int) :
    Option ServiceBody × SnapshotCache :=
  (dictGet (c.service_bodies db).1 bmlt_id, (c.service_bodies db).2)

/-- SnapshotCache.get_meeting_naws_code: dict lookup through the memo. -/
def SnapshotCache.get_meeting_naws_code (db : Db) (c : SnapshotCache) (bmlt_id : Int) :
    Option MeetingNawsCode × SnapshotCache :=
  (dictGetNaws (c.meeting_naws_codes db).1 bmlt_id, (c.meeting_naws_codes db).2)

/-- SnapshotCache.clear: drop both memos. -/
def SnapshotCache.clear (c : SnapshotCache) : SnapshotCache :=
  { c with service_bodies_memo := none, meeting_naws_codes_memo := none }

/-! ## Row builders and the save functions (snapshot.py) -/

/-- snapshot.py BmltServiceBody.to_db: a ServiceBody row for the snapshot
with no parent set; the id argument is the autoincrement key the flush
will assign. -/
def BmltServiceBody.to_db (b : BmltServiceBody) (db : Db) (snapshot : Snapshot) (id : Nat) :
    ServiceBody :=
  let naws := crud.get_service_body_naws_code_by_server db snapshot.root_server_id b.id
  { id := id,
    snapshot_id := snapshot.id,
    bmlt_id := b.id,
    parent_id := none,
    name := b.name,
    type := b.type,
    description := b.description,
    url := b.url,
    helpline := b.helpline,
    world_id := b.world_id,
    service_body_naws_code_id := naws.map (fun c => c.id) }

/-- snapshot.py BmltFormat.to_db. -/
def BmltFormat.to_db (f : BmltFormat) (db : Db) (snapshot : Snapshot) (id : Nat) : Format :=
  let naws := crud.get_format_naws_code_by_server db snapshot.root_server_id f.id
  { id := id,
    snapshot_id := snapshot.id,
    bmlt_id := f.id,
    key_string := f.key_string,
    name := f.name_string,
    world_id := f.world_id,
    format_naws_code_id := naws.map (fun c => c.id) }

/-- snapshot.py BmltMeeting.to_db: resolve the naws code and the service
body through the cache — raising `ValueError("invalid service body")`
when the service body does not resolve — then build the Meeting row and
one MeetingFormat join row per format returned by
crud.get_formats_by_bmlt_ids for the meeting's format id list.  The id
argument is the autoincrement key the flush will assign to the meeting;
the join rows pair with it the way the ORM pairs the objects.  The venue
type mirrors the source's truthiness test
`VenueTypeEnum(venue_type) if venue_type else NONE`. -/
def BmltMeeting.to_db (m : BmltMeeting) (db : Db) (cache : SnapshotCache) (id : Nat) :
    Except String (Meeting × List MeetingFormat × SnapshotCache) :=
  let naws := (cache.get_meeting_naws_code db m.id_bigint).1
  let cache1 := (cache.get_meeting_naws_code db m.id_bigint).2
  let cache2 := (cache1.get_service_body db m.service_body_bigint).2
  match (cache1.get_service_body db m.service_body_bigint).1 with
  | none => .error "invalid service body"
  | some service_body =>
    let db_meeting : Meeting :=
      { id := id,
        snapshot_id := cache2.snapshot.id,
        bmlt_id := m.id_bigint,
        name := m.meeting_name,
        day := m.weekday_tinyint,
        service_body_id := service_body.id,
        venue_type := match m.venue_type with
          | some v => if v ≠ 0 then v else 0
          | none => 0,
        start_time := m.start_time,
        duration := m.duration_time,
        time_zone := m.time_zone,
        latitude := m.latitude,
        longitude := m.longitude,
        published := m.published,
        world_id := m.worldid_mixed,
        meeting_naws_code_id := naws.map (fun c => c.id),
        location_text := m.location_text,
        location_info := m.location_info,
        location_street := m.location_street,
        location_city_subsection := m.location_city_subsection,
        location_neighborhood := m.location_neighborhood,
        location_municipality := m.location_municipality,
        location_sub_province := m.location_sub_province,
        location_province := m.location_province,
        location_postal_code_1 := m.location_postal_code_1,
        location_nation := m.location_nation,
        train_lines := m.train_lines,
        bus_lines := m.bus_lines,
        comments := m.comments,
        virtual_meeting_link := m.virtual_meeting_link,
        phone_meeting_number := m.phone_meeting_number,
        virtual_meeting_additional_info := m.virtual_meeting_additional_info }
    let db_formats := crud.get_formats_by_bmlt_ids db cache2.snapshot.id m.format_shared_id_list
    let db_meeting_formats := db_formats.map
      (fun f => ({ meeting_id := id, format_id := f.id } : MeetingFormat))
    .ok (db_meeting, db_meeting_formats, cache2)

/-- snapshot.py save_service_bodies, pass 1: add one parentless row per
validated record; the flush assigns consecutive autoincrement ids. -/
def save_service_bodies_pass1 (snapshot : Snapshot) : Db → List BmltServiceBody → Db
  | db, [] => db
  | db, b :: rest =>
    let row := b.to_db db snapshot db.next_service_body_id
    save_service_bodies_pass1 snapshot
      { db with service_bodies := db.service_bodies ++ [row],
                next_service_body_id := db.next_service_body_id + 1 } rest

/-- One iteration of snapshot.py save_service_bodies pass 2, on the
service body table: for a record declaring a truthy (non-zero) parent
external id, take the first row of the snapshot carrying the parent's
bmlt id; when found, set the parent reference of every row of the
snapshot carrying the child's bmlt id. -/
def updParent (snapshot : Snapshot) (table : List ServiceBody) (b : BmltServiceBody) :
    List ServiceBody :=
  if b.parent_id ≠ 0 then
    match table.find?
        (fun r => r.snapshot_id == snapshot.id && r.bmlt_id == b.parent_id) with
    | some p =>
      table.map (fun r =>
        if r.snapshot_id == snapshot.id && r.bmlt_id == b.id
        then { r with parent_id := some p.id } else r)
    | none => table
  else table

/-- One iteration of snapshot.py save_service_bodies pass 2, lifted to the
database state. -/
def sb_parent_update (snapshot : Snapshot) (db : Db) (b : BmltServiceBody) : Db :=
  { db with service_bodies := updParent snapshot db.service_bodies b }

/-- snapshot.py save_service_bodies, pass 2: apply the parent update for
every record of the batch, in batch order. -/
def save_service_bodies_pass2 (snapshot : Snapshot) : Db → List BmltServiceBody → Db
  | db, [] => db
  | db, b :: rest => save_service_bodies_pass2 snapshot (sb_parent_update snapshot db b) rest

/-- snapshot.py save_service_bodies: the two-pass hierarchy save. -/
def save_service_bodies (db : Db) (snapshot : Snapshot) (bs : List BmltServiceBody) : Db :=
  save_service_bodies_pass2 snapshot (save_service_bodies_pass1 snapshot db bs) bs

/-- snapshot.py save_formats: add one row per validated record, flush. -/
def save_formats (snapshot : Snapshot) : Db → List BmltFormat → Db
  | db, [] => db
  | db, f :: rest =>
    let row := f.to_db db snapshot db.next_format_id
    save_formats snapshot
      { db with formats := db.formats ++ [row],
                next_format_id := db.next_format_id + 1 } rest

/-- The loop of snapshot.py save_meetings: one to_db/add per meeting,
threading the lazily populated cache; the first error aborts. -/
def save_meetings_loop : Db → SnapshotCache → List BmltMeeting → Except String Db
  | db, _, [] => .ok db
  | db, cache, m :: rest =>
    match m.to_db db cache db.next_meeting_id with
    | .error e => .error e
    | .ok res =>
      save_meetings_loop
        { db with meetings := db.meetings ++ [res.1],
                  meeting_formats := db.meeting_formats ++ res.2.1,
                  next_meeting_id := db.next_meeting_id + 1 } res.2.2 rest

/-- snapshot.py save_meetings: a fresh SnapshotCache, then the loop.  The
session has autoflush disabled and the meeting-phase queries read only
the service body and format tables, which the loop never touches, so
adding each row as it is built coincides with the source's flush at the
end. -/
def save_meetings (db : Db) (snapshot : Snapshot) (ms : List BmltMeeting) : Except String Db :=
  save_meetings_loop db (SnapshotCache.init snapshot) ms

/-! ## Transport and orchestration (snapshot.py get_json / create_snapshot,
database.py db_context) -/

/-- An HTTP response from one directory endpoint: a status code and the
decoded JSON array of raw records. -/
structure HttpResponse (α : Type) where
  status_code : Nat
  body : List α
deriving DecidableEq

/-- snapshot.py get_json: a non-200 status raises; otherwise the decoded
JSON list is returned. -/
def get_json {α : Type} (r : HttpResponse α) : Except String (List α) :=
  if r.status_code ≠ 200 then .error "unexpected status code" else .ok r.body

/-- The three collection fetches one snapshot run performs. -/
structure FetchEnv where
  service_bodies_response : HttpResponse RawServiceBody
  formats_response : HttpResponse RawFormat
  meetings_response : HttpResponse RawMeeting
deriving DecidableEq

/-- The run up to and including the formats phase: create the snapshot
row, fetch/validate/persist service bodies (with hierarchy resolution),
then fetch/validate/persist formats. -/
def create_snapshot_prefix (db : Db) (root_server : RootServer) (env : FetchEnv) :
    Except String (Db × Snapshot) := do
  let db1 := (crud.create_snapshot db root_server).1
  let snapshot := (crud.create_snapshot db root_server).2
  let sb_raws ← get_json env.service_bodies_response
  let db2 := save_service_bodies db1 snapshot (BmltServiceBody.fromRaws sb_raws)
  let fmt_raws ← get_json env.formats_response
  let db3 := save_formats snapshot db2 (BmltFormat.fromRaws fmt_raws)
  .ok (db3, snapshot)

/-- snapshot.py create_snapshot: the full orchestrated run for one root
server. -/
def create_snapshot_run (db : Db) (root_server : RootServer) (env : FetchEnv) :
    Except String Db := do
  let pre ← create_snapshot_prefix db root_server env
  let mtg_raws ← get_json env.meetings_response
  save_meetings pre.1 pre.2 (BmltMeeting.fromRaws mtg_raws)

/-- database.py db_context: commit the session on normal return, roll
every write of the run back on an exception. -/
def db_context (init : Db) (action : Db → Except String Db) : Db :=
  match action init with
  | .ok db => db
  | .error _ => init

/-! ## Concrete records, mirroring the repository's test fixtures -/

/-- The mock raw meeting of test_snapshot_meetings.py, restricted to the
fields the model declares. -/
def mockRawMeeting : RawMeeting :=
  { id_bigint := some "6102",
    meeting_name := some "Pioneers of Change",
    weekday_tinyint := some "1",
    worldid_mixed := some "G00013329",
    service_body_bigint := some "101",
    start_time := some "16:00:00",
    duration_time := some "01:00:00",
    venue_type := some "",
    time_zone := some "America/New_York",
    format_shared_id_list := some "7,8,17",
    longitude := some "-82.8381874",
    latitude := some "34.6840723",
    comments := some "",
    virtual_meeting_additional_info := some "",
    location_city_subsection := some "",
    virtual_meeting_link := some "",
    phone_meeting_number := some "",
    location_nation := some "US",
    location_postal_code_1 := some "29631",
    location_province := some "SC",
    location_sub_province := some "Pickens",
    location_municipality := some "Clemson",
    location_neighborhood := some "",
    location_street := some "111 Sloan St.",
    location_info := some "Entrance at rear of church",
    location_text := some "University Lutheran Church",
    bus_lines := some "On CAT bus line",
    train_lines := some "",
    published := some "0" }

/-- The value `mockRawMeeting` validates to. -/
def mockBmltMeeting : BmltMeeting :=
  { id_bigint := 6102,
    meeting_name := "Pioneers of Change",
    weekday_tinyint := 1,
    worldid_mixed := some "G00013329",
    service_body_bigint := 101,
    start_time := ⟨16, 0, 0⟩,
    duration_time := 3600,
    venue_type := none,
    time_zone := some "America/New_York",
    format_shared_id_list := [7, 8, 17],
    longitude := some "-82.8381874",
    latitude := some "34.6840723",
    comments := none,
    virtual_meeting_additional_info := none,
    location_city_subsection := none,
    virtual_meeting_link := none,
    phone_meeting_number := none,
    location_nation := some "US",
    location_postal_code_1 := some "29631",
    location_province := some "SC",
    location_sub_province := some "Pickens",
    location_municipality := some "Clemson",
    location_neighborhood := none,
    location_street := some "111 Sloan St.",
    location_info := some "Entrance at rear of church",
    location_text := some "University Lutheran Church",
    bus_lines := some "On CAT bus line",
    train_lines := none,
    published := false }

/-- The mock raw service body of test_snapshot_service_bodies.py. -/
def mockRawServiceBody : RawServiceBody :=
  { id := some "9",
    parent_id := some "20",
    name := some "Unity Springs Area",
    type := some "AS",
    description := some "Unity Springs Area",
    url := some "http://www.unityspringsna.org",
    helpline := some "(866) 418-1683",
    world_id := some "AR63340" }

/-- The value `mockRawServiceBody` validates to. -/
def mockBmltServiceBody : BmltServiceBody :=
  { id := 9,
    parent_id := 20,
    name := "Unity Springs Area",
    type := "AS",
    description := some "Unity Springs Area",
    url := some "http://www.unityspringsna.org",
    helpline := some "(866) 418-1683",
    world_id := some "AR63340" }

/-- A raw format record in the shape the GetFormats endpoint serves. -/
def mockRawFormat : RawFormat :=
  { id := some "12",
    key_string := some "O",
    name_string := some "Open",
    world_id := some "" }

/-! ## Specification-side views of the hierarchy save

These definitions are the vocabulary in which the two-pass save is
characterized; `rowOf` is the snapshot-scoped row lookup pass 2 itself
performs (and the repository's tests use to inspect the result). -/

/-- The first ServiceBody row of the snapshot carrying the given external
id, exactly the lookup of save_service_bodies pass 2. -/
def rowOf (snapshot : Snapshot) (table : List ServiceBody) (x : Int) : Option ServiceBody :=
  table.find? (fun r => r.snapshot_id == snapshot.id && r.bmlt_id == x)

/-- The rows pass 1 appends: one parentless row per record, with
consecutive autoincrement ids from `n`. -/
def pass1Rows (db : Db) (snapshot : Snapshot) : List BmltServiceBody → Nat → List ServiceBody
  | [], _ => []
  | b :: rest, n => b.to_db db snapshot n :: pass1Rows db snapshot rest (n + 1)

/-- Overwrite every row's parent reference with the value a parent
assignment gives its external id. -/
def setParents (φ : Int → Option Nat) (rows : List ServiceBody) : List ServiceBody :=
  rows.map (fun r => { r with parent_id := φ r.bmlt_id })

/-- The effect of one pass-2 iteration on a parent assignment over the
pass-1 rows. -/
def parentStep (snapshot : Snapshot) (rows0 : List ServiceBody) (φ : Int → Option Nat)
    (b : BmltServiceBody) : Int → Option Nat :=
  if b.parent_id ≠ 0 then
    match rowOf snapshot rows0 b.parent_id with
    | some p => fun x => if x = b.id then some p.id else φ x
    | none => φ
  else φ

/-- The parent assignment accumulated by pass 2 over a batch. -/
def parentAssign (snapshot : Snapshot) (rows0 : List ServiceBody) :
    (Int → Option Nat) → List BmltServiceBody → (Int → Option Nat)
  | φ, [] => φ
  | φ, b :: rest => parentAssign snapshot rows0 (parentStep snapshot rows0 φ b) rest

/-- Pass 2 as a fold on the service body table. -/
def updParents (snapshot : Snapshot) : List ServiceBody → List BmltServiceBody → List ServiceBody
  | table, [] => table
  | table, b :: rest => updParents snapshot (updParent snapshot table b) rest

/-! ## Concrete database states used by the settled claims -/

/-- A database with empty tables and fresh counters. -/
def emptyDb : Db :=
  { root_servers := [],
    snapshots := [],
    service_bodies := [],
    formats := [],
    meetings := [],
    meeting_formats := [],
    service_body_naws_codes := [],
    format_naws_codes := [],
    meeting_naws_codes := [],
    next_snapshot_id := 1,
    next_service_body_id := 1,
    next_format_id := 1,
    next_meeting_id := 1 }

/-- A ServiceBody row persisted for snapshot 1 (external id 42). -/
def c1ServiceBodyRow : ServiceBody :=
  { id := 1, snapshot_id := 1, bmlt_id := 42, parent_id := none,
    name := "Mid-State Area", type := "AS", description := none,
    url := none, helpline := none, world_id := none,
    service_body_naws_code_id := none }

/-- A database holding two snapshots of the same root server, with one
service body persisted for snapshot 1 and none for snapshot 2. -/
def c1Db : Db :=
  { emptyDb with
    root_servers := [{ id := 1, name := "root name", url := "https://example.org/main_server/" }],
    snapshots := [{ id := 1, root_server_id := 1 }, { id := 2, root_server_id := 1 }],
    service_bodies := [c1ServiceBodyRow],
    next_snapshot_id := 3,
    next_service_body_id := 2 }

/-- Snapshot 2 of `c1Db`, which owns no service bodies. -/
def c1Snapshot2 : Snapshot := { id := 2, root_server_id := 1 }

/-- Format with external id 1, first row of the formats table. -/
def c3Format1 : Format :=
  { id := 1, snapshot_id := 1, bmlt_id := 1, key_string := "O",
    name := none, world_id := none, format_naws_code_id := none }

/-- Format with external id 2, second row of the formats table. -/
def c3Format2 : Format :=
  { id := 2, snapshot_id := 1, bmlt_id := 2, key_string := "BEG",
    name := none, world_id := none, format_naws_code_id := none }

/-- The service body the mock meeting references (external id 101). -/
def c3ServiceBody : ServiceBody :=
  { id := 1, snapshot_id := 1, bmlt_id := 101, parent_id := none,
    name := "sb name", type := "AS", description := none,
    url := none, helpline := none, world_id := none,
    service_body_naws_code_id := none }

/-- A database for snapshot 1 holding the service body and the two
formats, the formats inserted in external-id order 1 then 2. -/
def c3Db : Db :=
  { emptyDb with
    root_servers := [{ id := 1, name := "root name", url := "https://example.org/main_server/" }],
    snapshots := [{ id := 1, root_server_id := 1 }],
    service_bodies := [c3ServiceBody],
    formats := [c3Format1, c3Format2],
    next_snapshot_id := 2,
    next_service_body_id := 2,
    next_format_id := 3 }

/-- The snapshot of `c3Db`. -/
def c3Snapshot : Snapshot := { id := 1, root_server_id := 1 }

/-- The mock meeting declaring its format list in the order 2 then 1. -/
def c3Meeting : BmltMeeting :=
  { mockBmltMeeting with format_shared_id_list := [2, 1] }

/-- The mock meeting declaring format 1 twice and format 3 (absent from
the snapshot) once. -/
def c10Meeting : BmltMeeting :=
  { mockBmltMeeting with format_shared_id_list := [1, 1, 3] }

/-- The Meeting row `c10Meeting` persists against `c3Db`. -/
def c10DbMeeting : Meeting :=
  { id := 1,
    snapshot_id := 1,
    bmlt_id := 6102,
    name := "Pioneers of Change",
    day := 1,
    service_body_id := 1,
    venue_type := 0,
    start_time := ⟨16, 0, 0⟩,
    duration := 3600,
    time_zone := some "America/New_York",
    latitude := some "34.6840723",
    longitude := some "-82.8381874",
    published := false,
    world_id := some "G00013329",
    meeting_naws_code_id := none,
    location_text := some "University Lutheran Church",
    location_info := some "Entrance at rear of church",
    location_street := some "111 Sloan St.",
    location_city_subsection := none,
    location_neighborhood := none,
    location_municipality := some "Clemson",
    location_sub_province := some "Pickens",
    location_province := some "SC",
    location_postal_code_1 := some "29631",
    location_nation := some "US",
    train_lines := none,
    bus_lines := some "On CAT bus line",
    comments := none,
    virtual_meeting_link := none,
    phone_meeting_number := none,
    virtual_meeting_additional_info := none }

/-- The single join row `c10Meeting` produces: format 1 once, despite the
duplicated id in the list. -/
def c10Joins : List MeetingFormat := [{ meeting_id := 1, format_id := 1 }]

/-- The cache after resolving `c10Meeting` against `c3Db`: both memos
populated (the service-body memo through the unscoped query). -/
def c10CacheAfter : SnapshotCache :=
  { snapshot := c3Snapshot, service_bodies_memo := some [c3ServiceBody],
    meeting_naws_codes_memo := some [] }

/-- The six service bodies of the spec's hierarchy example, in scrambled
arrival order (1, 2, 5, 3, 4, 6): 1 and 5 are roots, 2 and 3 declare
parent 1, 4 declares parent 3, 6 declares parent 5. -/
def c2Batch : List BmltServiceBody :=
  [{ mockBmltServiceBody with id := 1, parent_id := 0 },
   { mockBmltServiceBody with id := 2, parent_id := 1 },
   { mockBmltServiceBody with id := 5, parent_id := 0 },
   { mockBmltServiceBody with id := 3, parent_id := 1 },
   { mockBmltServiceBody with id := 4, parent_id := 3 },
   { mockBmltServiceBody with id := 6, parent_id := 5 }]

/-- The snapshot the hierarchy example is saved into. -/
def c2Snapshot : Snapshot := { id := 1, root_server_id := 1 }

/-- The root server the orchestrator examples run against. -/
def c4RootServer : RootServer :=
  { id := 1, name := "root name", url := "https://example.org/main_server/" }

/-- Three successful fetches whose meetings collection holds the mock
meeting; the empty collections persist no service bodies, so the mock
meeting's service body reference (external id 101) cannot resolve. -/
def c4Env : FetchEnv :=
  { service_bodies_response := { status_code := 200, body := [] },
    formats_response := { status_code := 200, body := [] },
    meetings_response := { status_code := 200, body := [mockRawMeeting] } }

/-- The state after `create_snapshot_prefix` on `emptyDb` with `c4Env`:
only the snapshot row was created. -/
def c4DbAfterPrefix : Db :=
  { emptyDb with
    snapshots := [{ id := 1, root_server_id := 1 }],
    next_snapshot_id := 2 }

/-- The snapshot row `c4Env`'s run creates. -/
def c4Snapshot : Snapshot := { id := 1, root_server_id := 1 }

/-- A fetch environment whose service bodies fetch returns a 500. -/
def c5Env : FetchEnv :=
  { service_bodies_response := { status_code := 500, body := [] },
    formats_response := { status_code := 200, body := [] },
    meetings_response := { status_code := 200, body := [mockRawMeeting] } }

/-! ## Parser lemmas shared by the claims -/

theorem service_body_fromRaws_eq (raws : List RawServiceBody) :
    BmltServiceBody.fromRaws raws = raws.filterMap BmltServiceBody.mk? := by
  induction raws with
  | nil => rfl
  | cons r rest ih =>
    cases h : BmltServiceBody.mk? r <;>
      simp [BmltServiceBody.fromRaws, List.filterMap_cons, h, ih]

theorem format_fromRaws_eq (raws : List RawFormat) :
    BmltFormat.fromRaws raws = raws.filterMap BmltFormat.mk? := by
  induction raws with
  | nil => rfl
  | cons r rest ih =>
    cases h : BmltFormat.mk? r <;>
      simp [BmltFormat.fromRaws, List.filterMap_cons, h, ih]

theorem meeting_fromRaws_eq (raws : List RawMeeting) :
    BmltMeeting.fromRaws raws = raws.filterMap BmltMeeting.mk? := by
  induction raws with
  | nil => rfl
  | cons r rest ih =>
    cases h : BmltMeeting.mk? r <;>
      simp [BmltMeeting.fromRaws, List.filterMap_cons, h, ih]

/-- Validating the mock meeting with the venue-type field replaced is the
venue-type field validation followed by the rest of the (concretely
successful) record validation. -/
theorem mk?_mock_venue (v : Option String) :
    BmltMeeting.mk? { mockRawMeeting with venue_type := v } =
      (venueTypeField v).map (fun vt => { mockBmltMeeting with venue_type := vt }) := by
  have key : BmltMeeting.mk? { mockRawMeeting with venue_type := v } =
      (venueTypeField v).bind (fun vt => some { mockBmltMeeting with venue_type := vt }) := rfl
  rw [key]
  cases venueTypeField v <;> rfl

/-- Validating the mock meeting with the published field replaced is the
published field validation followed by the rest of the (concretely
successful) record validation. -/
theorem mk?_mock_published (v : Option String) :
    BmltMeeting.mk? { mockRawMeeting with published := v } =
      (reqBool v).map (fun b => { mockBmltMeeting with published := b }) := by
  have key : BmltMeeting.mk? { mockRawMeeting with published := v } =
      (reqBool v).bind (fun b => some { mockBmltMeeting with published := b }) := rfl
  rw [key]
  cases reqBool v <;> rfl

/-! ## Claim C6 -/

/-- C6: for every fetched collection, a raw record that fails field
validation is skipped without aborting the batch: each parsing loop
returns exactly the records that validate, in their original relative
order (the filterMap of the per-record validator — a total function, so
no malformed record makes the loop raise), and removing one malformed
record from anywhere in a batch leaves the result unchanged. -/
theorem c6_per_record_validation_skips (sbs : List RawServiceBody) (fs : List RawFormat)
    (ms xs ys : List RawMeeting) (bad : RawMeeting) (hbad : BmltMeeting.mk? bad = none) :
    BmltServiceBody.fromRaws sbs = sbs.filterMap BmltServiceBody.mk? ∧
    BmltFormat.fromRaws fs = fs.filterMap BmltFormat.mk? ∧
    BmltMeeting.fromRaws ms = ms.filterMap BmltMeeting.mk? ∧
    BmltMeeting.fromRaws (xs ++ bad :: ys) = BmltMeeting.fromRaws (xs ++ ys) := by
  refine ⟨service_body_fromRaws_eq sbs, format_fromRaws_eq fs,
    meeting_fromRaws_eq ms, ?_⟩
  simp [meeting_fromRaws_eq, List.filterMap_append, List.filterMap_cons, hbad]

/-- C6 witness: the mock meeting with weekday 8 fails validation and is
skipped while the valid mock record before it survives. -/
theorem c6_witness :
    BmltMeeting.mk? { mockRawMeeting with weekday_tinyint := some "8" } = none ∧
    BmltMeeting.fromRaws
        ([mockRawMeeting] ++ { mockRawMeeting with weekday_tinyint := some "8" } :: []) =
      BmltMeeting.fromRaws ([mockRawMeeting] ++ []) :=
  ⟨by decide,
   (c6_per_record_validation_skips [] [] [] [mockRawMeeting] []
      { mockRawMeeting with weekday_tinyint := some "8" } (by decide)).2.2.2⟩

/-! ## Claim C8 -/

/-- C8 is false as stated: it says unparsable non-empty venue-type text
rejects the record, but `venue_type_pre` catches the `ValueError` that
`int("abc")` raises and returns `None`, so the record validates with
venue type "none". -/
theorem c8_counterexample :
    (BmltMeeting.mk? { mockRawMeeting with venue_type := some "abc" }).map
      (fun m => m.venue_type) = some none := by decide

/-- C8 amended: raw venue-type values "1", "2", "3" are accepted and map
to the three venue-type values; an empty or absent venue-type maps to
"none"; 0 and integer values outside [1, 3] reject the record; non-empty
text that does not parse as an integer is treated like empty and maps to
"none" instead of rejecting the record. -/
theorem c8_amended_venue_type (s : String) (k : Int) :
    ((BmltMeeting.mk? { mockRawMeeting with venue_type := some "1" }).map
      (fun m => m.venue_type) = some (some 1)) ∧
    ((BmltMeeting.mk? { mockRawMeeting with venue_type := some "2" }).map
      (fun m => m.venue_type) = some (some 2)) ∧
    ((BmltMeeting.mk? { mockRawMeeting with venue_type := some "3" }).map
      (fun m => m.venue_type) = some (some 3)) ∧
    ((BmltMeeting.mk? { mockRawMeeting with venue_type := some "" }).map
      (fun m => m.venue_type) = some none) ∧
    ((BmltMeeting.mk? { mockRawMeeting with venue_type := none }).map
      (fun m => m.venue_type) = some none) ∧
    (BmltMeeting.mk? { mockRawMeeting with venue_type := some "0" } = none) ∧
    (pyInt s = some k → k < 1 ∨ 3 < k →
      BmltMeeting.mk? { mockRawMeeting with venue_type := some s } = none) ∧
    (pyInt s = none →
      (BmltMeeting.mk? { mockRawMeeting with venue_type := some s }).map
        (fun m => m.venue_type) = some none) := by
  refine ⟨by decide, by decide, by decide, by decide, by decide, by decide, ?_, ?_⟩
  · intro hk hrange
    rw [mk?_mock_venue]
    have hc : venueTypeField (some s) = none := by
      simp only [venueTypeField, hk]
      rw [if_neg]
      simp only [Bool.and_eq_true, decide_eq_true_eq, not_and]
      intro h1
      rcases hrange with h | h
      · omega
      · omega
    rw [hc]
    rfl
  · intro hn
    rw [mk?_mock_venue]
    simp only [venueTypeField, hn]
    rfl

/-- C8 witness: at the integer 4 (the spec's own boundary example) the
record is rejected, and at the unparsable "n/a" the record validates with
venue "none". -/
theorem c8_witness :
    pyInt "4" = some 4 ∧ ((4 : Int) < 1 ∨ (3 : Int) < 4) ∧
    BmltMeeting.mk? { mockRawMeeting with venue_type := some "4" } = none ∧
    pyInt "n/a" = none ∧
    (BmltMeeting.mk? { mockRawMeeting with venue_type := some "n/a" }).map
      (fun m => m.venue_type) = some none :=
  ⟨by decide, by decide,
   (c8_amended_venue_type "4" 4).2.2.2.2.2.2.1 (by decide) (by decide),
   by decide,
   (c8_amended_venue_type "n/a" 0).2.2.2.2.2.2.2 (by decide)⟩

/-! ## Claim C9 -/

/-- C9 is false as stated: it says only the two canonical encodings of
true and false are accepted, but pydantic's bool validator also accepts
"yes" (and "on", "t", "y", ... — twelve case-insensitive encodings), so
a published value of "yes" validates to true instead of rejecting the
record. -/
theorem c9_counterexample :
    (BmltMeeting.mk? { mockRawMeeting with published := some "yes" }).map
      (fun m => m.published) = some true := by decide

/-- C9 amended: the published field accepts exactly pydantic's string
bool encodings — case-insensitively "1", "on", "t", "true", "y", "yes"
parse to true and "0", "off", "f", "false", "n", "no" parse to false —
and any other raw value, including an absent field, rejects the
record. -/
theorem c9_amended_published (s : String) :
    (lowerChars s.data ∈ boolTrueEncodings →
      (BmltMeeting.mk? { mockRawMeeting with published := some s }).map
        (fun m => m.published) = some true) ∧
    (lowerChars s.data ∈ boolFalseEncodings →
      (BmltMeeting.mk? { mockRawMeeting with published := some s }).map
        (fun m => m.published) = some false) ∧
    (lowerChars s.data ∉ boolTrueEncodings → lowerChars s.data ∉ boolFalseEncodings →
      BmltMeeting.mk? { mockRawMeeting with published := some s } = none) ∧
    (BmltMeeting.mk? { mockRawMeeting with published := none } = none) := by
  refine ⟨?_, ?_, ?_, by rw [mk?_mock_published] ; rfl⟩
  · intro h
    rw [mk?_mock_published]
    have hp : pyBool s = some true := by simp [pyBool, h]
    simp [reqBool, hp]
  · intro h
    rw [mk?_mock_published]
    have ht : lowerChars s.data ∉ boolTrueEncodings := by
      simp only [boolFalseEncodings, List.mem_cons, List.not_mem_nil, or_false] at h
      rcases h with h | h | h | h | h | h <;> rw [h] <;> decide
    have hp : pyBool s = some false := by simp [pyBool, ht, h]
    simp [reqBool, hp]
  · intro h1 h2
    rw [mk?_mock_published]
    have hp : pyBool s = none := by simp [pyBool, h1, h2]
    simp [reqBool, hp]

/-- C9 witness: "TRUE" (case-insensitive encoding) is accepted as true,
"off" as false, and "2" rejects the record. -/
theorem c9_witness :
    ((BmltMeeting.mk? { mockRawMeeting with published := some "TRUE" }).map
      (fun m => m.published) = some true) ∧
    ((BmltMeeting.mk? { mockRawMeeting with published := some "off" }).map
      (fun m => m.published) = some false) ∧
    BmltMeeting.mk? { mockRawMeeting with published := some "2" } = none :=
  ⟨(c9_amended_published "TRUE").1 (by decide),
   (c9_amended_published "off").2.1 (by decide),
   (c9_amended_published "2").2.2.1 (by decide) (by decide)⟩

/-! ## Claim C1 -/

/-- C1 names the intended invariant but the code breaks it:
`get_service_bodies_by_snapshot` filters on `snapshot_id == snapshot_id`,
comparing its own Python argument with itself instead of with the column,
so the query for snapshot 2 — which owns no service bodies — returns the
row persisted for snapshot 1, and the Lookup Cache for snapshot 2
resolves external id 42 to a ServiceBody of a different snapshot.  Every
sibling query in crud.py compares the column (`Format.snapshot_id ==
snapshot_id`), pass 2 of the hierarchy save scopes its lookups with
`ServiceBody.snapshot_id == snapshot.id`, and the repository's tests
inspect rows the same way, so the snapshot-scoped population the spec
states is the evident intent and the filter a slip. -/
theorem c1_cache_not_snapshot_scoped :
    crud.get_service_bodies_by_snapshot c1Db c1Snapshot2.id = [c1ServiceBodyRow] ∧
    c1ServiceBodyRow.snapshot_id ≠ c1Snapshot2.id ∧
    ((SnapshotCache.init c1Snapshot2).get_service_body c1Db 42).1 = some c1ServiceBodyRow := by
  exact ⟨rfl, by decide, rfl⟩

/-! ## Cache lemmas shared by the meeting-phase claims -/

theorem snapshot_after_naws (db : Db) (c : SnapshotCache) (y : Int) :
    ((c.get_meeting_naws_code db y).2).snapshot = c.snapshot := by
  cases h : c.meeting_naws_codes_memo <;>
    simp [SnapshotCache.get_meeting_naws_code, SnapshotCache.meeting_naws_codes, h]

theorem snapshot_after_sb (db : Db) (c : SnapshotCache) (x : Int) :
    ((c.get_service_body db x).2).snapshot = c.snapshot := by
  cases h : c.service_bodies_memo <;>
    simp [SnapshotCache.get_service_body, SnapshotCache.service_bodies, h]

theorem get_service_body_after_naws (db : Db) (c : SnapshotCache) (x y : Int) :
    (((c.get_meeting_naws_code db y).2).get_service_body db x).1 =
      (c.get_service_body db x).1 := by
  cases h : c.meeting_naws_codes_memo <;> cases hs : c.service_bodies_memo <;>
    simp [SnapshotCache.get_meeting_naws_code, SnapshotCache.meeting_naws_codes, h, hs,
      SnapshotCache.get_service_body, SnapshotCache.service_bodies]

/-- When the meeting builder returns rows, the join rows are one per
format returned by the batched snapshot query, paired with the meeting's
key. -/
theorem to_db_ok_joins (m : BmltMeeting) (db : Db) (cache : SnapshotCache) (mid : Nat)
    (mtg : Meeting) (joins : List MeetingFormat) (cache1 : SnapshotCache)
    (h : BmltMeeting.to_db m db cache mid = .ok (mtg, joins, cache1)) :
    joins = (crud.get_formats_by_bmlt_ids db cache.snapshot.id m.format_shared_id_list).map
      (fun f => { meeting_id := mid, format_id := f.id }) := by
  have hsnap : (((cache.get_meeting_naws_code db m.id_bigint).2.get_service_body db
      m.service_body_bigint).2).snapshot = cache.snapshot := by
    rw [snapshot_after_sb, snapshot_after_naws]
  simp only [BmltMeeting.to_db] at h
  cases hsb : ((cache.get_meeting_naws_code db m.id_bigint).2.get_service_body db
      m.service_body_bigint).1 with
  | none => rw [hsb] at h ; exact Except.noConfusion h
  | some sb =>
    rw [hsb] at h
    simp only [Except.ok.injEq, Prod.mk.injEq] at h
    rw [← h.2.1, hsnap]

/-! ## Claim C3 -/

/-- C3 is false as stated: against `c3Db`, whose formats table holds
external ids 1 then 2, the meeting declaring its format list as `[2, 1]`
gets its two join rows in the table order 1 then 2 — the unordered
batched query — not in the relative order of the input list the claim
requires. -/
theorem c3_counterexample :
    c3Meeting.format_shared_id_list = [2, 1] ∧
    (BmltMeeting.to_db c3Meeting c3Db (SnapshotCache.init c3Snapshot) 1).map
      (fun t => t.2.1.map (fun j => j.format_id)) = .ok [c3Format1.id, c3Format2.id] ∧
    c3Format1.bmlt_id = 1 ∧ c3Format2.bmlt_id = 2 ∧
    [c3Format1.id, c3Format2.id] ≠ [c3Format2.id, c3Format1.id] := by
  exact ⟨rfl, rfl, rfl, rfl, by decide⟩

/-- C3 amended: for every meeting whose service body resolves, the
builder produces exactly one join row per format row of the current
snapshot whose external id occurs in the meeting's list — ids that do not
resolve are simply dropped, never raising an error — but the join rows
follow the snapshot's format-table order (one batched, unordered lookup),
not the relative order of the meeting's input list. -/
theorem c3_amended_format_joins (m : BmltMeeting) (db : Db) (cache : SnapshotCache) (mid : Nat)
    (sb : ServiceBody) (hsb : (cache.get_service_body db m.service_body_bigint).1 = some sb) :
    ∃ mtg joins cache1,
      BmltMeeting.to_db m db cache mid = .ok (mtg, joins, cache1) ∧
      joins.map (fun j => j.format_id) =
        (db.formats.filter (fun f =>
          f.snapshot_id == cache.snapshot.id &&
          m.format_shared_id_list.contains f.bmlt_id)).map (fun f => f.id) ∧
      (∀ j ∈ joins, j.meeting_id = mid) := by
  have hsb2 : (((cache.get_meeting_naws_code db m.id_bigint).2).get_service_body db
      m.service_body_bigint).1 = some sb := by
    rw [get_service_body_after_naws] ; exact hsb
  cases hok : BmltMeeting.to_db m db cache mid with
  | error e =>
    exfalso
    simp only [BmltMeeting.to_db] at hok
    rw [hsb2] at hok
    exact Except.noConfusion hok
  | ok trip =>
    obtain ⟨mtg, joins, cache1⟩ := trip
    have hj := to_db_ok_joins m db cache mid mtg joins cache1 hok
    refine ⟨mtg, joins, cache1, rfl, ?_, ?_⟩
    · rw [hj, List.map_map]
      simp only [crud.get_formats_by_bmlt_ids]
      rfl
    · intro j hjm
      rw [hj] at hjm
      simp only [List.mem_map] at hjm
      obtain ⟨f, _, rfl⟩ := hjm
      rfl

/-- C3 witness: the spec's own example — format list `[1, 2, 3]` against
a snapshot containing only formats 1 and 2 — yields exactly two join
rows, for 1 then 2, and the mock meeting's service body resolves. -/
theorem c3_witness :
    ((SnapshotCache.init c3Snapshot).get_service_body c3Db 101).1 = some c3ServiceBody ∧
    (∃ mtg joins cache1,
      BmltMeeting.to_db { mockBmltMeeting with format_shared_id_list := [1, 2, 3] } c3Db
          (SnapshotCache.init c3Snapshot) 1 = .ok (mtg, joins, cache1) ∧
      joins.map (fun j => j.format_id) =
        (c3Db.formats.filter (fun f =>
          f.snapshot_id == (SnapshotCache.init c3Snapshot).snapshot.id &&
          ({ mockBmltMeeting with format_shared_id_list := [1, 2, 3] } :
            BmltMeeting).format_shared_id_list.contains f.bmlt_id)).map (fun f => f.id) ∧
      (∀ j ∈ joins, j.meeting_id = 1)) ∧
    (c3Db.formats.filter (fun f =>
      f.snapshot_id == (SnapshotCache.init c3Snapshot).snapshot.id &&
      [(1 : Int), 2, 3].contains f.bmlt_id)).map (fun f => f.id) = [1, 2] :=
  ⟨rfl,
   c3_amended_format_joins { mockBmltMeeting with format_shared_id_list := [1, 2, 3] }
     c3Db (SnapshotCache.init c3Snapshot) 1 c3ServiceBody rfl,
   by decide⟩

/-! ## Claim C10 -/

/-- C10: the join rows built for one meeting refer to pairwise distinct
formats.  The builder maps over the format rows the batched query
returns — each table row at most once — and never iterates the id list,
so a duplicated resolvable id yields a single join row; under the
primary-key uniqueness of the formats table the join rows' format
references are pairwise distinct, and since every join row carries the
same meeting, no two join rows share a (meeting, format) pair. -/
theorem c10_join_rows_distinct (m : BmltMeeting) (db : Db) (cache : SnapshotCache) (mid : Nat)
    (mtg : Meeting) (joins : List MeetingFormat) (cache1 : SnapshotCache)
    (hpk : (db.formats.map (fun f => f.id)).Nodup)
    (h : BmltMeeting.to_db m db cache mid = .ok (mtg, joins, cache1)) :
    (joins.map (fun j => j.format_id)).Nodup ∧ joins.Nodup := by
  have hj := to_db_ok_joins m db cache mid mtg joins cache1 h
  have hmap : joins.map (fun j => j.format_id) =
      (crud.get_formats_by_bmlt_ids db cache.snapshot.id m.format_shared_id_list).map
        (fun f => f.id) := by
    rw [hj, List.map_map]
    rfl
  have hsub : List.Sublist
      ((crud.get_formats_by_bmlt_ids db cache.snapshot.id
        m.format_shared_id_list).map (fun f => f.id))
      (db.formats.map (fun f => f.id)) :=
    List.Sublist.map _ (List.filter_sublist _)
  have hnd : (joins.map (fun j => j.format_id)).Nodup := by
    rw [hmap]
    exact List.Nodup.sublist hsub hpk
  exact ⟨hnd, List.Nodup.of_map _ hnd⟩

/-! ## Lookup-cache evaluation and orchestrator lemmas -/

/-- The unscoped query behind the cache (see `c1_cache_not_snapshot_scoped`):
the tautological filter returns the whole table. -/
theorem get_sbs_unscoped (db : Db) (sid : Nat) :
    crud.get_service_bodies_by_snapshot db sid = db.service_bodies := by
  simp [crud.get_service_bodies_by_snapshot]

theorem get_service_body_eval (db : Db) (c : SnapshotCache) (x : Int) (SB : List ServiceBody)
    (hdb : db.service_bodies = SB)
    (hc : c.service_bodies_memo = none ∨ c.service_bodies_memo = some SB) :
    (c.get_service_body db x).1 = dictGet SB x := by
  rcases hc with hc | hc <;>
    simp [SnapshotCache.get_service_body, SnapshotCache.service_bodies, hc,
      get_sbs_unscoped, hdb]

theorem get_service_body_memo_after (db : Db) (c : SnapshotCache) (x : Int)
    (SB : List ServiceBody) (hdb : db.service_bodies = SB)
    (hc : c.service_bodies_memo = none ∨ c.service_bodies_memo = some SB) :
    ((c.get_service_body db x).2).service_bodies_memo = some SB := by
  rcases hc with hc | hc <;>
    simp [SnapshotCache.get_service_body, SnapshotCache.service_bodies, hc,
      get_sbs_unscoped, hdb]

theorem naws_preserves_sb_memo (db : Db) (c : SnapshotCache) (y : Int) :
    ((c.get_meeting_naws_code db y).2).service_bodies_memo = c.service_bodies_memo := by
  cases h : c.meeting_naws_codes_memo <;>
    simp [SnapshotCache.get_meeting_naws_code, SnapshotCache.meeting_naws_codes, h]

/-- An unresolved service body reference raises
`ValueError("invalid service body")`. -/
theorem to_db_error_of_unresolved (m : BmltMeeting) (db : Db) (cache : SnapshotCache)
    (mid : Nat) (h : (cache.get_service_body db m.service_body_bigint).1 = none) :
    BmltMeeting.to_db m db cache mid = .error "invalid service body" := by
  have h2 : ((cache.get_meeting_naws_code db m.id_bigint).2.get_service_body db
      m.service_body_bigint).1 = none := by
    rw [get_service_body_after_naws] ; exact h
  simp only [BmltMeeting.to_db]
  rw [h2]

/-- A successful meeting build means the service body resolved, and the
returned cache is the one after the two lookups. -/
theorem to_db_ok_parts (m : BmltMeeting) (db : Db) (cache : SnapshotCache) (mid : Nat)
    (res : Meeting × List MeetingFormat × SnapshotCache)
    (h : BmltMeeting.to_db m db cache mid = .ok res) :
    (cache.get_service_body db m.service_body_bigint).1 ≠ none ∧
    res.2.2 = ((cache.get_meeting_naws_code db m.id_bigint).2.get_service_body db
      m.service_body_bigint).2 := by
  constructor
  · intro hn
    rw [to_db_error_of_unresolved m db cache mid hn] at h
    exact Except.noConfusion h
  · simp only [BmltMeeting.to_db] at h
    cases hsb : ((cache.get_meeting_naws_code db m.id_bigint).2.get_service_body db
        m.service_body_bigint).1 with
    | none => rw [hsb] at h ; exact Except.noConfusion h
    | some sb =>
      rw [hsb] at h
      simp only [Except.ok.injEq] at h
      rw [← h]

/-- If any meeting of the batch has an unresolvable service body in the
cache's dictionary, the save loop raises.  The service body table never
changes during the loop, so the lazily populated memo always holds the
same dictionary. -/
theorem save_meetings_loop_error (SB : List ServiceBody) :
    ∀ (ms : List BmltMeeting) (db : Db) (cache : SnapshotCache),
      db.service_bodies = SB →
      (cache.service_bodies_memo = none ∨ cache.service_bodies_memo = some SB) →
      (∃ m ∈ ms, dictGet SB m.service_body_bigint = none) →
      ∃ e, save_meetings_loop db cache ms = .error e := by
  intro ms
  induction ms with
  | nil =>
    rintro db cache _ _ ⟨m, hm, _⟩
    exact absurd hm (List.not_mem_nil m)
  | cons m rest ih =>
    rintro db cache hdb hc ⟨m', hm', hfail⟩
    cases hok : BmltMeeting.to_db m db cache db.next_meeting_id with
    | error e =>
      exact ⟨e, by simp [save_meetings_loop, hok]⟩
    | ok res =>
      have hparts := to_db_ok_parts m db cache db.next_meeting_id res hok
      have hm'' : m' ∈ rest := by
        rcases List.mem_cons.mp hm' with rfl | hmem
        · exact absurd hfail
            (by rw [← get_service_body_eval db cache m'.service_body_bigint SB hdb hc]
                exact hparts.1)
        · exact hmem
      have hc1 : res.2.2.service_bodies_memo = some SB := by
        rw [hparts.2]
        apply get_service_body_memo_after db _ _ SB hdb
        rw [naws_preserves_sb_memo]
        exact hc
      have step : save_meetings_loop db cache (m :: rest) =
          save_meetings_loop
            { db with meetings := db.meetings ++ [res.1],
                      meeting_formats := db.meeting_formats ++ res.2.1,
                      next_meeting_id := db.next_meeting_id + 1 } res.2.2 rest := by
        simp [save_meetings_loop, hok]
      rw [step]
      exact ih _ _ hdb (Or.inr hc1) ⟨m', hm'', hfail⟩

/-! ## Claim C4 -/

/-- C4: a validated meeting whose declared service body external id does
not resolve in the Lookup Cache's dictionary makes the run raise — the
error propagates out of the orchestrator instead of skipping the
meeting — and under the caller's rollback-on-exception context the
database is exactly its initial state: no meetings, formats, or service
bodies from the run remain committed. -/
theorem c4_referential_failure (db : Db) (rs : RootServer) (env : FetchEnv)
    (db3 : Db) (snap : Snapshot)
    (hpre : create_snapshot_prefix db rs env = .ok (db3, snap))
    (hmtg : env.meetings_response.status_code = 200)
    (hx : ∃ m ∈ BmltMeeting.fromRaws env.meetings_response.body,
      dictGet (crud.get_service_bodies_by_snapshot db3 snap.id)
        m.service_body_bigint = none) :
    (∃ e, create_snapshot_run db rs env = .error e) ∧
    db_context db (fun d => create_snapshot_run d rs env) = db := by
  rw [get_sbs_unscoped] at hx
  obtain ⟨e, he⟩ :=
    save_meetings_loop_error db3.service_bodies
      (BmltMeeting.fromRaws env.meetings_response.body) db3 (SnapshotCache.init snap)
      rfl (Or.inl rfl) hx
  have hrun : create_snapshot_run db rs env = .error e := by
    simp [create_snapshot_run, hpre, get_json, hmtg, bind, Except.bind, save_meetings] at he ⊢
    exact he
  exact ⟨⟨e, hrun⟩, by simp [db_context, hrun]⟩

/-- C4 witness: against an empty database, a run whose three fetches
succeed but whose only meeting references service body 101 — never
persisted, since the service bodies collection is empty — errors, and the
rollback context leaves the database untouched. -/
theorem c4_witness :
    create_snapshot_prefix emptyDb c4RootServer c4Env = .ok (c4DbAfterPrefix, c4Snapshot) ∧
    ((∃ e, create_snapshot_run emptyDb c4RootServer c4Env = .error e) ∧
     db_context emptyDb (fun d => create_snapshot_run d c4RootServer c4Env) = emptyDb) :=
  ⟨rfl,
   c4_referential_failure emptyDb c4RootServer c4Env c4DbAfterPrefix c4Snapshot rfl rfl
     ⟨mockBmltMeeting, by decide, by decide⟩⟩

/-! ## Claim C5 -/

/-- C5: a non-success response on any of the three collection fetches
makes get_json raise; the error propagates out of the whole run, and
under the caller's rollback-on-exception context zero rows from the run
— snapshot row, service bodies, formats, meetings, join rows — remain
persisted: the final state is exactly the initial one. -/
theorem c5_transport_failure (db : Db) (rs : RootServer) (env : FetchEnv)
    (h : env.service_bodies_response.status_code ≠ 200 ∨
         env.formats_response.status_code ≠ 200 ∨
         env.meetings_response.status_code ≠ 200) :
    (∃ e, create_snapshot_run db rs env = .error e) ∧
    db_context db (fun d => create_snapshot_run d rs env) = db := by
  have herr : create_snapshot_run db rs env = .error "unexpected status code" := by
    by_cases h1 : env.service_bodies_response.status_code = 200
    · by_cases h2 : env.formats_response.status_code = 200
      · have h3 : env.meetings_response.status_code ≠ 200 := by
          rcases h with h | h | h
          · exact absurd h1 h
          · exact absurd h2 h
          · exact h
        simp [create_snapshot_run, create_snapshot_prefix, get_json, h1, h2, h3,
          bind, Except.bind]
      · simp [create_snapshot_run, create_snapshot_prefix, get_json, h1, h2,
          bind, Except.bind]
    · simp [create_snapshot_run, create_snapshot_prefix, get_json, h1, bind, Except.bind]
  exact ⟨⟨_, herr⟩, by simp [db_context, herr]⟩

/-- C5 witness: a 500 on the service bodies fetch aborts the run against
an empty database and the rollback context leaves it empty. -/
theorem c5_witness :
    c5Env.service_bodies_response.status_code ≠ 200 ∧
    ((∃ e, create_snapshot_run emptyDb c4RootServer c5Env = .error e) ∧
     db_context emptyDb (fun d => create_snapshot_run d c4RootServer c5Env) = emptyDb) :=
  ⟨by decide, c5_transport_failure emptyDb c4RootServer c5Env (Or.inl (by decide))⟩

/-- C10 witness: the mock meeting declaring format 1 twice (and the
unresolvable 3) produces exactly one join row, for format 1, and the
rows are trivially pairwise distinct. -/
theorem c10_witness :
    (c3Db.formats.map (fun f => f.id)).Nodup ∧
    BmltMeeting.to_db c10Meeting c3Db (SnapshotCache.init c3Snapshot) 1 =
      .ok (c10DbMeeting, c10Joins, c10CacheAfter) ∧
    c10Meeting.format_shared_id_list = [1, 1, 3] ∧
    c10Joins = [{ meeting_id := 1, format_id := 1 }] ∧
    ((c10Joins.map (fun j => j.format_id)).Nodup ∧ c10Joins.Nodup) :=
  ⟨by decide, rfl, rfl, rfl,
   c10_join_rows_distinct c10Meeting c3Db (SnapshotCache.init c3Snapshot) 1
     c10DbMeeting c10Joins c10CacheAfter (by decide) rfl⟩

/-! ## The two-pass hierarchy save: shape and characterization lemmas -/


theorem to_db_naws_congr (b : BmltServiceBody) (db1 db2 : Db) (snapshot : Snapshot) (i : Nat)
    (h : db1.service_body_naws_codes = db2.service_body_naws_codes) :
    b.to_db db1 snapshot i = b.to_db db2 snapshot i := by
  simp [BmltServiceBody.to_db, crud.get_service_body_naws_code_by_server, h]

theorem pass1Rows_congr (db1 db2 : Db) (snapshot : Snapshot)
    (h : db1.service_body_naws_codes = db2.service_body_naws_codes) :
    ∀ (bs : List BmltServiceBody) (n : Nat),
      pass1Rows db1 snapshot bs n = pass1Rows db2 snapshot bs n := by
  intro bs
  induction bs with
  | nil => intro n ; rfl
  | cons b rest ih =>
    intro n
    simp [pass1Rows, to_db_naws_congr b db1 db2 snapshot n h, ih]

theorem pass1_eq (snapshot : Snapshot) :
    ∀ (bs : List BmltServiceBody) (db : Db),
      save_service_bodies_pass1 snapshot db bs =
        { db with
          service_bodies :=
            db.service_bodies ++ pass1Rows db snapshot bs db.next_service_body_id,
          next_service_body_id := db.next_service_body_id + bs.length } := by
  intro bs
  induction bs with
  | nil => intro db ; simp [save_service_bodies_pass1, pass1Rows]
  | cons b rest ih =>
    intro db
    rw [save_service_bodies_pass1, ih]
    simp only [pass1Rows]
    simp [List.append_assoc, List.length_cons]
    exact ⟨pass1Rows_congr
      { db with
        service_bodies := db.service_bodies ++ [b.to_db db snapshot db.next_service_body_id],
        next_service_body_id := db.next_service_body_id + 1 }
      db snapshot rfl rest _, by omega⟩



theorem pass1Rows_bmlt (db : Db) (snapshot : Snapshot) :
    ∀ (bs : List BmltServiceBody) (n : Nat),
      (pass1Rows db snapshot bs n).map (fun r => r.bmlt_id) = bs.map (fun b => b.id) := by
  intro bs
  induction bs with
  | nil => intro n ; rfl
  | cons b rest ih => intro n ; simp [pass1Rows, BmltServiceBody.to_db, ih]

theorem pass1Rows_mem (db : Db) (snapshot : Snapshot) :
    ∀ (bs : List BmltServiceBody) (n : Nat) (r : ServiceBody),
      r ∈ pass1Rows db snapshot bs n →
      r.snapshot_id = snapshot.id ∧ r.parent_id = none := by
  intro bs
  induction bs with
  | nil => intro n r hr ; exact absurd hr (List.not_mem_nil r)
  | cons b rest ih =>
    intro n r hr
    rcases List.mem_cons.mp hr with rfl | hmem
    · exact ⟨rfl, rfl⟩
    · exact ih (n + 1) r hmem

theorem pass2_eq (snapshot : Snapshot) :
    ∀ (bs : List BmltServiceBody) (db : Db),
      save_service_bodies_pass2 snapshot db bs =
        { db with service_bodies := updParents snapshot db.service_bodies bs } := by
  intro bs
  induction bs with
  | nil => intro db ; simp [save_service_bodies_pass2, updParents]
  | cons b rest ih =>
    intro db
    rw [save_service_bodies_pass2, ih]
    rfl

theorem find?_append_left_none {α : Type} (p : α → Bool) (l1 l2 : List α)
    (h : ∀ x ∈ l1, p x = false) :
    (l1 ++ l2).find? p = l2.find? p := by
  rw [List.find?_append, List.find?_eq_none.mpr (fun x hx => by simp [h x hx])]
  rfl

theorem updParent_append (snapshot : Snapshot) (pre rows : List ServiceBody)
    (b : BmltServiceBody) (hpre : ∀ r ∈ pre, r.snapshot_id ≠ snapshot.id) :
    updParent snapshot (pre ++ rows) b = pre ++ updParent snapshot rows b := by
  have hfalse : ∀ (x : Int) (r : ServiceBody), r ∈ pre →
      (r.snapshot_id == snapshot.id && r.bmlt_id == x) = false := by
    intro x r hr
    simp [hpre r hr]
  unfold updParent
  by_cases hb : b.parent_id ≠ 0
  · simp only [if_pos hb]
    rw [find?_append_left_none _ pre rows (hfalse b.parent_id)]
    cases hp : rows.find? (fun r => r.snapshot_id == snapshot.id && r.bmlt_id == b.parent_id) with
    | none => rfl
    | some p =>
      dsimp only
      rw [List.map_append]
      have hid : List.map
          (fun r => if (r.snapshot_id == snapshot.id && r.bmlt_id == b.id) = true
            then { r with parent_id := some p.id } else r) pre = List.map id pre :=
        List.map_congr_left (fun r hr => by simp [hfalse b.id r hr])
      rw [hid, List.map_id]
  · simp [hb]

theorem updParents_append (snapshot : Snapshot) (pre : List ServiceBody)
    (hpre : ∀ r ∈ pre, r.snapshot_id ≠ snapshot.id) :
    ∀ (bs : List BmltServiceBody) (rows : List ServiceBody),
      updParents snapshot (pre ++ rows) bs = pre ++ updParents snapshot rows bs := by
  intro bs
  induction bs with
  | nil => intro rows ; rfl
  | cons b rest ih =>
    intro rows
    rw [updParents, updParent_append snapshot pre rows b hpre, ih]
    rfl

theorem setParents_none (rows : List ServiceBody) (h : ∀ r ∈ rows, r.parent_id = none) :
    setParents (fun _ => none) rows = rows := by
  induction rows with
  | nil => rfl
  | cons r rest ih =>
    have hr : ({ r with parent_id := none } : ServiceBody) = r := by
      cases r
      simp_all
    have hrest : setParents (fun _ => none) rest = rest :=
      ih (fun x hx => h x (List.mem_cons_of_mem r hx))
    show ({ r with parent_id := none } :: setParents (fun _ => none) rest) = r :: rest
    rw [hr, hrest]

theorem find?_setParents (snapshot : Snapshot) (φ : Int → Option Nat)
    (rows : List ServiceBody) (x : Int) :
    rowOf snapshot (setParents φ rows) x =
      (rowOf snapshot rows x).map (fun r => { r with parent_id := φ r.bmlt_id }) := by
  unfold rowOf setParents
  rw [List.find?_map]
  rfl

theorem updParent_setParents (snapshot : Snapshot) (rows0 : List ServiceBody)
    (hsnap : ∀ r ∈ rows0, r.snapshot_id = snapshot.id) (φ : Int → Option Nat)
    (b : BmltServiceBody) :
    updParent snapshot (setParents φ rows0) b =
      setParents (parentStep snapshot rows0 φ b) rows0 := by
  unfold updParent parentStep
  by_cases hb : b.parent_id ≠ 0
  · simp only [if_pos hb]
    unfold rowOf
    have hfind := find?_setParents snapshot φ rows0 b.parent_id
    unfold rowOf at hfind
    rw [hfind]
    cases hp : List.find? (fun r => r.snapshot_id == snapshot.id && r.bmlt_id == b.parent_id)
        rows0 with
    | none => rfl
    | some p =>
      dsimp only [Option.map_some']
      unfold setParents
      rw [List.map_map]
      apply List.map_congr_left
      intro r hr
      have hs := hsnap r hr
      by_cases hid : r.bmlt_id = b.id
      · simp [Function.comp, hs, hid]
      · simp [Function.comp, hs, hid]
  · simp only [if_neg hb]

theorem updParents_setParents (snapshot : Snapshot) (rows0 : List ServiceBody)
    (hsnap : ∀ r ∈ rows0, r.snapshot_id = snapshot.id) :
    ∀ (bs : List BmltServiceBody) (φ : Int → Option Nat),
      updParents snapshot (setParents φ rows0) bs =
        setParents (parentAssign snapshot rows0 φ bs) rows0 := by
  intro bs
  induction bs with
  | nil => intro φ ; rfl
  | cons b rest ih =>
    intro φ
    rw [updParents, updParent_setParents snapshot rows0 hsnap φ b, ih]
    rfl

theorem parentAssign_not_mem (snapshot : Snapshot) (rows0 : List ServiceBody) :
    ∀ (bs : List BmltServiceBody) (φ : Int → Option Nat) (x : Int),
      x ∉ bs.map (fun b => b.id) →
      parentAssign snapshot rows0 φ bs x = φ x := by
  intro bs
  induction bs with
  | nil => intro φ x _ ; rfl
  | cons b rest ih =>
    intro φ x hx
    simp only [List.map_cons, List.mem_cons] at hx
    push_neg at hx
    rw [parentAssign, ih _ x hx.2]
    unfold parentStep
    by_cases hb : b.parent_id ≠ 0
    · simp only [if_pos hb]
      cases hp : rowOf snapshot rows0 b.parent_id with
      | none => rfl
      | some p => simp [hx.1]
    · simp [hb]

theorem parentAssign_eval (snapshot : Snapshot) (rows0 : List ServiceBody) :
    ∀ (bs : List BmltServiceBody) (φ : Int → Option Nat) (b : BmltServiceBody),
      b ∈ bs → (bs.map (fun b => b.id)).Nodup →
      parentAssign snapshot rows0 φ bs b.id =
        if b.parent_id ≠ 0 then
          match rowOf snapshot rows0 b.parent_id with
          | some p => some p.id
          | none => φ b.id
        else φ b.id := by
  intro bs
  induction bs with
  | nil => intro φ b hb ; exact absurd hb (List.not_mem_nil b)
  | cons hd tl ih =>
    intro φ b hmem hnodup
    simp only [List.map_cons, List.nodup_cons] at hnodup
    rcases List.mem_cons.mp hmem with rfl | hmem'
    · rw [parentAssign, parentAssign_not_mem snapshot rows0 tl _ b.id hnodup.1]
      unfold parentStep
      by_cases hb : b.parent_id ≠ 0
      · simp only [if_pos hb]
        cases hp : rowOf snapshot rows0 b.parent_id with
        | none => rfl
        | some p => simp
      · simp [hb]
    · have hne : b.id ≠ hd.id := by
        intro he
        exact hnodup.1 (he ▸ List.mem_map_of_mem (fun b' => b'.id) hmem')
      rw [parentAssign, ih _ b hmem' hnodup.2]
      have hstep : parentStep snapshot rows0 φ hd b.id = φ b.id := by
        unfold parentStep
        by_cases hb : hd.parent_id ≠ 0
        · simp only [if_pos hb]
          cases hp : rowOf snapshot rows0 hd.parent_id with
          | none => rfl
          | some p => simp [hne]
        · simp [hb]
      rw [hstep]

theorem rowOf_rows0_some (db : Db) (snapshot : Snapshot) (bs : List BmltServiceBody)
    (n : Nat) (y : Int) (hy : y ∈ bs.map (fun b => b.id)) :
    ∃ r0, rowOf snapshot (pass1Rows db snapshot bs n) y = some r0 ∧
      r0.bmlt_id = y ∧ r0.parent_id = none ∧ r0.snapshot_id = snapshot.id := by
  have hy' : y ∈ (pass1Rows db snapshot bs n).map (fun r => r.bmlt_id) := by
    rw [pass1Rows_bmlt] ; exact hy
  obtain ⟨r1, hr1, hr1y⟩ := List.mem_map.mp hy'
  have hmem := pass1Rows_mem db snapshot bs n r1 hr1
  have hsome : (rowOf snapshot (pass1Rows db snapshot bs n) y).isSome := by
    unfold rowOf
    rw [List.find?_isSome]
    exact ⟨r1, hr1, by simp [hmem.1, hr1y]⟩
  obtain ⟨r0, hr0⟩ := Option.isSome_iff_exists.mp hsome
  have hpred := List.find?_some hr0
  simp only [Bool.and_eq_true, beq_iff_eq] at hpred
  have hmem0 := pass1Rows_mem db snapshot bs n r0 (List.mem_of_find?_eq_some hr0)
  exact ⟨r0, hr0, hpred.2, hmem0.2, hmem0.1⟩

theorem rowOf_rows0_none (db : Db) (snapshot : Snapshot) (bs : List BmltServiceBody)
    (n : Nat) (y : Int) (hy : y ∉ bs.map (fun b => b.id)) :
    rowOf snapshot (pass1Rows db snapshot bs n) y = none := by
  unfold rowOf
  rw [List.find?_eq_none]
  intro r hr
  simp only [Bool.and_eq_true, beq_iff_eq, not_and]
  intro _ hry
  exact hy (by
    rw [← pass1Rows_bmlt db snapshot bs n]
    exact hry ▸ List.mem_map_of_mem (fun r => r.bmlt_id) hr)

theorem save_service_bodies_rows (db : Db) (snapshot : Snapshot) (bs : List BmltServiceBody)
    (hids : (bs.map (fun b => b.id)).Nodup)
    (hfresh : ∀ r ∈ db.service_bodies, r.snapshot_id ≠ snapshot.id) :
    ∀ b ∈ bs, ∃ r,
      rowOf snapshot (save_service_bodies db snapshot bs).service_bodies b.id = some r ∧
      r.bmlt_id = b.id ∧ r.snapshot_id = snapshot.id ∧
      ((b.parent_id = 0 ∨ (∀ p ∈ bs, p.id ≠ b.parent_id)) → r.parent_id = none) ∧
      (∀ p ∈ bs, b.parent_id ≠ 0 → p.id = b.parent_id →
        ∃ pr, rowOf snapshot (save_service_bodies db snapshot bs).service_bodies
            b.parent_id = some pr ∧ pr.bmlt_id = b.parent_id ∧ r.parent_id = some pr.id) := by
  have hsnap : ∀ r ∈ pass1Rows db snapshot bs db.next_service_body_id,
      r.snapshot_id = snapshot.id :=
    fun r hr => (pass1Rows_mem db snapshot bs _ r hr).1
  have hpnone : ∀ r ∈ pass1Rows db snapshot bs db.next_service_body_id,
      r.parent_id = none :=
    fun r hr => (pass1Rows_mem db snapshot bs _ r hr).2
  have htable : (save_service_bodies db snapshot bs).service_bodies =
      db.service_bodies ++
        setParents (parentAssign snapshot (pass1Rows db snapshot bs db.next_service_body_id)
          (fun _ => none) bs) (pass1Rows db snapshot bs db.next_service_body_id) := by
    unfold save_service_bodies
    rw [pass2_eq, pass1_eq]
    dsimp only
    rw [updParents_append snapshot db.service_bodies hfresh bs _]
    congr 1
    conv_lhs =>
      rw [← setParents_none (pass1Rows db snapshot bs db.next_service_body_id) hpnone]
    exact updParents_setParents snapshot _ hsnap bs (fun _ => none)
  have hrowOf : ∀ y, rowOf snapshot (save_service_bodies db snapshot bs).service_bodies y =
      rowOf snapshot (setParents (parentAssign snapshot
        (pass1Rows db snapshot bs db.next_service_body_id) (fun _ => none) bs)
        (pass1Rows db snapshot bs db.next_service_body_id)) y := by
    intro y
    rw [htable]
    unfold rowOf
    apply find?_append_left_none
    intro r hr
    simp [hfresh r hr]
  intro b hb
  obtain ⟨r0, hr0, hr0b, hr0p, hr0s⟩ :=
    rowOf_rows0_some db snapshot bs db.next_service_body_id b.id
      (List.mem_map_of_mem (fun b => b.id) hb)
  have hfound : rowOf snapshot (save_service_bodies db snapshot bs).service_bodies b.id =
      some { r0 with parent_id := parentAssign snapshot
                       (pass1Rows db snapshot bs db.next_service_body_id)
                       (fun _ => none) bs b.id } := by
    rw [hrowOf, find?_setParents, hr0]
    dsimp only [Option.map_some']
    rw [hr0b]
  refine ⟨_, hfound, hr0b, hr0s, ?_, ?_⟩
  · intro hcase
    show parentAssign snapshot (pass1Rows db snapshot bs db.next_service_body_id)
      (fun _ => none) bs b.id = none
    rw [parentAssign_eval snapshot _ bs (fun _ => none) b hb hids]
    rcases hcase with h0 | hnores
    · simp [h0]
    · by_cases hb0 : b.parent_id ≠ 0
      · simp only [if_pos hb0]
        have hnm : b.parent_id ∉ bs.map (fun b' => b'.id) := by
          intro hmem
          obtain ⟨p, hp, hpe⟩ := List.mem_map.mp hmem
          exact hnores p hp hpe
        rw [rowOf_rows0_none db snapshot bs db.next_service_body_id b.parent_id hnm]
      · simp [hb0]
  · intro p hp hb0 hpe
    have hyp : b.parent_id ∈ bs.map (fun b' => b'.id) :=
      hpe ▸ List.mem_map_of_mem (fun b' => b'.id) hp
    obtain ⟨p0, hp0, hp0b, hp0p, hp0s⟩ :=
      rowOf_rows0_some db snapshot bs db.next_service_body_id b.parent_id hyp
    have hprfound : rowOf snapshot
        (save_service_bodies db snapshot bs).service_bodies b.parent_id =
        some { p0 with parent_id := parentAssign snapshot
                         (pass1Rows db snapshot bs db.next_service_body_id)
                         (fun _ => none) bs p0.bmlt_id } := by
      rw [hrowOf, find?_setParents, hp0]
      rfl
    refine ⟨_, hprfound, hp0b, ?_⟩
    show parentAssign snapshot (pass1Rows db snapshot bs db.next_service_body_id)
      (fun _ => none) bs b.id = some p0.id
    rw [parentAssign_eval snapshot _ bs (fun _ => none) b hb hids]
    simp only [if_pos hb0]
    rw [hp0]


/-! ## Claim C2 -/

/-- C2: hierarchy resolution is order-independent.  For every batch of
valid service bodies (pairwise distinct external ids — external ids are
unique within a snapshot) saved into a snapshot that owns no prior rows,
the two-pass save leaves, for each record of the batch, a row reachable
by the snapshot-scoped lookup of its external id; a child declaring a
non-zero parent external id that occurs in the batch ends with its
internal parent reference equal to that parent's internal row, and a
record declaring no parent (zero) or an unresolvable parent ends with no
parent.  The characterization never mentions the arrival order, so every
permutation of the batch resolves to the same parent relationships. -/
theorem c2_hierarchy_order_independent (db : Db) (snapshot : Snapshot)
    (bs : List BmltServiceBody)
    (hids : (bs.map (fun b => b.id)).Nodup)
    (hfresh : ∀ r ∈ db.service_bodies, r.snapshot_id ≠ snapshot.id) :
    ∀ b ∈ bs, ∃ r,
      rowOf snapshot (save_service_bodies db snapshot bs).service_bodies b.id = some r ∧
      r.bmlt_id = b.id ∧ r.snapshot_id = snapshot.id ∧
      ((b.parent_id = 0 ∨ (∀ p ∈ bs, p.id ≠ b.parent_id)) → r.parent_id = none) ∧
      (∀ p ∈ bs, b.parent_id ≠ 0 → p.id = b.parent_id →
        ∃ pr, rowOf snapshot (save_service_bodies db snapshot bs).service_bodies
            b.parent_id = some pr ∧ pr.bmlt_id = b.parent_id ∧ r.parent_id = some pr.id) :=
  save_service_bodies_rows db snapshot bs hids hfresh

/-- C2 witness: the spec's example batch (1 root, 2 under 1, 5 root,
3 under 1, 4 under 3, 6 under 5, arriving in the order 1, 2, 5, 3, 4, 6)
satisfies the characterization, and evaluating the save shows child 4
referencing the internal row of 3, child 6 the internal row of 5, and
roots 1 and 5 parentless. -/
theorem c2_witness :
    (c2Batch.map (fun b => b.id)).Nodup ∧
    (∀ r ∈ emptyDb.service_bodies, r.snapshot_id ≠ c2Snapshot.id) ∧
    (∀ b ∈ c2Batch, ∃ r,
      rowOf c2Snapshot (save_service_bodies emptyDb c2Snapshot c2Batch).service_bodies
          b.id = some r ∧
      r.bmlt_id = b.id ∧ r.snapshot_id = c2Snapshot.id ∧
      ((b.parent_id = 0 ∨ (∀ p ∈ c2Batch, p.id ≠ b.parent_id)) → r.parent_id = none) ∧
      (∀ p ∈ c2Batch, b.parent_id ≠ 0 → p.id = b.parent_id →
        ∃ pr, rowOf c2Snapshot
            (save_service_bodies emptyDb c2Snapshot c2Batch).service_bodies
            b.parent_id = some pr ∧ pr.bmlt_id = b.parent_id ∧
          r.parent_id = some pr.id)) ∧
    ((rowOf c2Snapshot (save_service_bodies emptyDb c2Snapshot c2Batch).service_bodies
        1).map (fun r => r.parent_id) = some none) ∧
    ((rowOf c2Snapshot (save_service_bodies emptyDb c2Snapshot c2Batch).service_bodies
        5).map (fun r => r.parent_id) = some none) ∧
    ((rowOf c2Snapshot (save_service_bodies emptyDb c2Snapshot c2Batch).service_bodies
        4).map (fun r => r.parent_id) =
      (rowOf c2Snapshot (save_service_bodies emptyDb c2Snapshot c2Batch).service_bodies
        3).map (fun r => some r.id)) ∧
    ((rowOf c2Snapshot (save_service_bodies emptyDb c2Snapshot c2Batch).service_bodies
        6).map (fun r => r.parent_id) =
      (rowOf c2Snapshot (save_service_bodies emptyDb c2Snapshot c2Batch).service_bodies
        5).map (fun r => some r.id)) :=
  ⟨by decide, by decide,
   c2_hierarchy_order_independent emptyDb c2Snapshot c2Batch (by decide) (by decide),
   by decide, by decide, by decide, by decide⟩

/-! ## Claim C7 -/

/-- C7 is false as stated: a service body record with an absent parent
external id is not "accepted and persisted as a root" — `parent_id` is a
required field of the model, so the record fails validation and is
skipped (the repository's own test asserts this rejection for both the
empty string and the missing key). -/
theorem c7_counterexample :
    BmltServiceBody.mk? { mockRawServiceBody with parent_id := none } = none := by decide

/-- C7 amended: a service body record whose parent external id is zero is
accepted and persisted as a root (no parent), and its parent id is never
looked up during hierarchy resolution — the pass-2 iteration for such a
record is the identity, short-circuiting before any lookup; a record with
an absent (or empty) parent external id fails validation and is
skipped. -/
theorem c7_amended_zero_parent (snapshot : Snapshot) (table : List ServiceBody)
    (dbx db : Db) (b : BmltServiceBody) (hb : b.parent_id = 0)
    (bs : List BmltServiceBody)
    (hids : (bs.map (fun p => p.id)).Nodup)
    (hfresh : ∀ r ∈ db.service_bodies, r.snapshot_id ≠ snapshot.id)
    (hmem : b ∈ bs) :
    BmltServiceBody.mk? { mockRawServiceBody with parent_id := some "0" } =
      some { mockBmltServiceBody with parent_id := 0 } ∧
    updParent snapshot table b = table ∧
    sb_parent_update snapshot dbx b = dbx ∧
    BmltServiceBody.mk? { mockRawServiceBody with parent_id := some "" } = none ∧
    BmltServiceBody.mk? { mockRawServiceBody with parent_id := none } = none ∧
    (∃ r, rowOf snapshot (save_service_bodies db snapshot bs).service_bodies b.id = some r ∧
      r.bmlt_id = b.id ∧ r.snapshot_id = snapshot.id ∧ r.parent_id = none) := by
  have hupd : updParent snapshot table b = table := by
    unfold updParent
    simp [hb]
  have hupd2 : sb_parent_update snapshot dbx b = dbx := by
    unfold sb_parent_update updParent
    simp [hb]
  refine ⟨by decide, hupd, hupd2, by decide, by decide, ?_⟩
  obtain ⟨r, hr, hrb, hrs, hcond, _⟩ :=
    save_service_bodies_rows db snapshot bs hids hfresh b hmem
  exact ⟨r, hr, hrb, hrs, hcond (Or.inl hb)⟩

/-- C7 witness: the zero-parent record with external id 1 of the example
batch is persisted as a root. -/
theorem c7_witness :
    ({ mockBmltServiceBody with id := 1, parent_id := 0 } : BmltServiceBody).parent_id = 0 ∧
    (BmltServiceBody.mk? { mockRawServiceBody with parent_id := some "0" } =
      some { mockBmltServiceBody with parent_id := 0 } ∧
    updParent c2Snapshot [] { mockBmltServiceBody with id := 1, parent_id := 0 } = [] ∧
    sb_parent_update c2Snapshot emptyDb
      { mockBmltServiceBody with id := 1, parent_id := 0 } = emptyDb ∧
    BmltServiceBody.mk? { mockRawServiceBody with parent_id := some "" } = none ∧
    BmltServiceBody.mk? { mockRawServiceBody with parent_id := none } = none ∧
    (∃ r, rowOf c2Snapshot
        (save_service_bodies emptyDb c2Snapshot c2Batch).service_bodies
        ({ mockBmltServiceBody with id := 1, parent_id := 0 } : BmltServiceBody).id = some r ∧
      r.bmlt_id = ({ mockBmltServiceBody with id := 1, parent_id := 0 } : BmltServiceBody).id ∧
      r.snapshot_id = c2Snapshot.id ∧ r.parent_id = none)) :=
  ⟨by decide,
   c7_amended_zero_parent c2Snapshot [] emptyDb emptyDb
     { mockBmltServiceBody with id := 1, parent_id := 0 } (by decide) c2Batch
     (by decide) (by decide) (by decide)⟩


end Dijon
